import Mathlib

/-!
Verification of the tool-calling chat orchestrator of the `meteo` repository
(`app/main.py`, with `app/db_utils.py` and `app/models.py`).

The embedding is shallow:

* Python JSON values are the inductive `JVal`; Python floats are modelled by
  their decimal representation (`Dec`), matching the decimal reprs that
  `json.dumps` prints and `json.loads` reads back.
* `json.dumps(content, default=str)` is `dumps` (an executable printer), and
  `json.loads` is `loads` (an executable fueled parser).
* The Groq client is an oracle `Provider`; the database layer behind
  `db_utils.get_all_weather` / `db_utils.get_weather_by_date` is an oracle
  `Db`.  Faults raised by either are `Except.error` carrying `str(e)`.
* `handle_chat_with_tools` is embedded as `handleChatWithTools`, which also
  returns the list of chat-completion requests it issued, so that claims
  about how often and with which arguments the provider is called are
  statable.
* The generator-based session lifecycle of `db_utils.get_db` is embedded as a
  small state machine over session events (`SessionEvent`).
-/

/-- A decimal number with at least one fractional digit: the model of a
Python `float` as printed by `repr`/`json.dumps` (for example `30.0` is
`⟨300, 0⟩`, `24.5` is `⟨245, 0⟩`).  The numeric value is
`m / 10 ^ (fracDigits + 1)`. -/
structure Dec where
  m : Int
  fracDigits : Nat
deriving DecidableEq, Repr

/-- A Python value as far as `json.dumps` / `json.loads` are concerned.
`jother s` stands for an object that is not JSON-serializable and whose
`str()` is `s`: `json.dumps(..., default=str)` serializes it as the string
`s` instead of raising. -/
inductive JVal where
  | jnull : JVal
  | jbool : Bool → JVal
  | jint : Int → JVal
  | jnum : Dec → JVal
  | jstr : String → JVal
  | jarr : List JVal → JVal
  | jobj : List (String × JVal) → JVal
  | jother : String → JVal

/-- Digit character for a digit value below ten. -/
def digitChar (d : Nat) : Char :=
  if d = 0 then '0' else if d = 1 then '1' else if d = 2 then '2'
  else if d = 3 then '3' else if d = 4 then '4' else if d = 5 then '5'
  else if d = 6 then '6' else if d = 7 then '7' else if d = 8 then '8'
  else '9'

/-- Little-endian base-ten digits of `n`, with explicit fuel so that the
definition is structural (kernel-reducible). -/
def natDigitsRev (fuel n : Nat) : List Nat :=
  match fuel with
  | 0 => []
  | f + 1 => if n = 0 then [] else (n % 10) :: natDigitsRev f (n / 10)

/-- The base-ten digit characters of `n`, most significant first; `"0"` for
zero (Python `str(int)`). -/
def printNatChars (n : Nat) : List Char :=
  if n = 0 then ['0'] else ((natDigitsRev n n).map digitChar).reverse

/-- Python `str` of an integer. -/
def printIntChars (i : Int) : List Char :=
  if i < 0 then '-' :: printNatChars i.natAbs else printNatChars i.natAbs

/-- The decimal digit characters of a `Dec`'s mantissa magnitude, left-padded
with zeros so that there is at least one digit in front of the decimal
point. -/
def decDigits (d : Dec) : List Char :=
  let ds := printNatChars d.m.natAbs
  List.replicate (d.fracDigits + 1 + 1 - ds.length) '0' ++ ds

/-- Python `repr` of a (non-exponent-form) float: sign, integer digits,
point, `fracDigits + 1` fractional digits. -/
def printDecChars (d : Dec) : List Char :=
  let ds := decDigits d
  let intPart := ds.take (ds.length - (d.fracDigits + 1))
  let fracPart := ds.drop (ds.length - (d.fracDigits + 1))
  (if d.m < 0 then ['-'] else []) ++ intPart ++ '.' :: fracPart

/-- Hexadecimal digit character. -/
def hexDigitChar (d : Nat) : Char :=
  if d < 10 then digitChar d
  else if d = 10 then 'a' else if d = 11 then 'b' else if d = 12 then 'c'
  else if d = 13 then 'd' else if d = 14 then 'e' else 'f'

/-- The six characters of a `\uXXXX` escape for a UTF-16 code unit
`n < 0x10000`, lowercase hex. -/
def uEscapeChars (n : Nat) : List Char :=
  ['\\', 'u', hexDigitChar (n / 4096 % 16), hexDigitChar (n / 256 % 16),
    hexDigitChar (n / 16 % 16), hexDigitChar (n % 16)]

/-- How `json.dumps` (with its default `ensure_ascii=True`) renders one
character inside a string literal: quote and backslash get backslash
escapes; backspace, tab, newline, form feed and carriage return get their
short escapes `\b \t \n \f \r`; every other character outside printable
ASCII (code point below 32, or 127 and above) becomes `\uXXXX` — as a
UTF-16 surrogate pair for code points beyond the basic multilingual plane —
and everything else is verbatim. -/
def escapeChar (c : Char) : List Char :=
  if c = '"' then ['\\', '"']
  else if c = '\\' then ['\\', '\\']
  else if c = '\x08' then ['\\', 'b']
  else if c = '\t' then ['\\', 't']
  else if c = '\n' then ['\\', 'n']
  else if c = '\x0c' then ['\\', 'f']
  else if c = '\r' then ['\\', 'r']
  else if c.toNat < 32 || 127 ≤ c.toNat then
    if c.toNat < 65536 then uEscapeChars c.toNat
    else
      uEscapeChars (55296 + (c.toNat - 65536) / 1024) ++
        uEscapeChars (56320 + (c.toNat - 65536) % 1024)
  else [c]

/-- Body of a JSON string literal. -/
def escapeChars (cs : List Char) : List Char :=
  cs.flatMap escapeChar

/-- A serialized JSON string literal, quotes included. -/
def quoteChars (s : String) : List Char :=
  '"' :: escapeChars s.data ++ ['"']

mutual

/-- `json.dumps(v, default=str)` with the default separators `", "` and
`": "`, as a character list. -/
def dumpsChars : JVal → List Char
  | .jnull => ['n', 'u', 'l', 'l']
  | .jbool true => ['t', 'r', 'u', 'e']
  | .jbool false => ['f', 'a', 'l', 's', 'e']
  | .jint i => printIntChars i
  | .jnum d => printDecChars d
  | .jstr s => quoteChars s
  | .jarr xs => '[' :: dumpsElems xs
  | .jobj kvs => '\x7b' :: dumpsMembers kvs
  | .jother s => quoteChars s

/-- Comma-separated serialized array elements, closing bracket included. -/
def dumpsElems : List JVal → List Char
  | [] => [']']
  | [x] => dumpsChars x ++ [']']
  | x :: y :: ys => dumpsChars x ++ ',' :: ' ' :: dumpsElems (y :: ys)

/-- Comma-separated serialized object members, closing brace included. -/
def dumpsMembers : List (String × JVal) → List Char
  | [] => ['\x7d']
  | [(k, v)] => quoteChars k ++ ':' :: ' ' :: dumpsChars v ++ ['\x7d']
  | (k, v) :: kvs => quoteChars k ++ ':' :: ' ' :: dumpsChars v ++ ',' :: ' ' :: dumpsMembers kvs

end

/-- `json.dumps(v, default=str)`. -/
def dumps (v : JVal) : String :=
  String.mk (dumpsChars v)

/-- JSON insignificant whitespace. -/
def isWsCh (c : Char) : Bool :=
  c = ' ' || c = '\t' || c = '\n' || c = '\r'

/-- Drop leading JSON whitespace. -/
def skipWs : List Char → List Char
  | [] => []
  | c :: cs => if isWsCh c then skipWs cs else c :: cs

/-- Is `c` a decimal digit character? -/
def isDigitCh (c : Char) : Bool :=
  48 ≤ c.toNat && c.toNat ≤ 57

/-- Value of a digit character. -/
def digitVal (c : Char) : Nat :=
  c.toNat - 48

/-- Split a leading run of digit characters off the input. -/
def takeDigits : List Char → List Char × List Char
  | [] => ([], [])
  | c :: cs =>
    if isDigitCh c then
      let p := takeDigits cs
      (c :: p.1, p.2)
    else ([], c :: cs)

/-- Numeric value of a digit-character run, most significant first. -/
def digitsVal (ds : List Char) : Nat :=
  ds.foldl (fun a c => a * 10 + digitVal c) 0

/-- Value of a hex digit character, if it is one. -/
def hexVal (c : Char) : Option Nat :=
  if isDigitCh c then some (digitVal c)
  else if 97 ≤ c.toNat && c.toNat ≤ 102 then some (c.toNat - 87)
  else if 65 ≤ c.toNat && c.toNat ≤ 70 then some (c.toNat - 55)
  else none

/-- Parse the body of a JSON string literal (the opening quote already
consumed), returning the decoded characters and the input after the closing
quote.  A `\uXXXX` escape carrying a high surrogate must be followed by a
low-surrogate escape and the pair decodes to one code point, as `json.loads`
combines them; a lone surrogate escape fails here, since a Lean `String`
(unlike a Python `str`) cannot hold an unpaired surrogate. -/
def parseStringBody : List Char → Option (List Char × List Char)
  | [] => none
  | '"' :: rest => some ([], rest)
  | '\\' :: e :: rest =>
    match e with
    | '"' => (parseStringBody rest).map (fun p => ('"' :: p.1, p.2))
    | '\\' => (parseStringBody rest).map (fun p => ('\\' :: p.1, p.2))
    | '/' => (parseStringBody rest).map (fun p => ('/' :: p.1, p.2))
    | 'b' => (parseStringBody rest).map (fun p => ('\x08' :: p.1, p.2))
    | 'f' => (parseStringBody rest).map (fun p => ('\x0c' :: p.1, p.2))
    | 'n' => (parseStringBody rest).map (fun p => ('\n' :: p.1, p.2))
    | 'r' => (parseStringBody rest).map (fun p => ('\r' :: p.1, p.2))
    | 't' => (parseStringBody rest).map (fun p => ('\t' :: p.1, p.2))
    | 'u' =>
      match rest with
      | a :: b :: c :: d :: rest2 =>
        match hexVal a, hexVal b, hexVal c, hexVal d with
        | some va, some vb, some vc, some vd =>
          if 55296 ≤ va * 4096 + vb * 256 + vc * 16 + vd ∧
              va * 4096 + vb * 256 + vc * 16 + vd < 56320 then
            match rest2 with
            | '\\' :: 'u' :: a2 :: b2 :: c2 :: d2 :: rest3 =>
              match hexVal a2, hexVal b2, hexVal c2, hexVal d2 with
              | some wa, some wb, some wc, some wd =>
                if 56320 ≤ wa * 4096 + wb * 256 + wc * 16 + wd ∧
                    wa * 4096 + wb * 256 + wc * 16 + wd < 57344 then
                  (parseStringBody rest3).map (fun p =>
                    (Char.ofNat (65536 + (va * 4096 + vb * 256 + vc * 16 + vd - 55296) * 1024 +
                      (wa * 4096 + wb * 256 + wc * 16 + wd - 56320)) :: p.1, p.2))
                else none
              | _, _, _, _ => none
            | _ => none
          else if 56320 ≤ va * 4096 + vb * 256 + vc * 16 + vd ∧
              va * 4096 + vb * 256 + vc * 16 + vd < 57344 then none
          else
            (parseStringBody rest2).map
              (fun p => (Char.ofNat (va * 4096 + vb * 256 + vc * 16 + vd) :: p.1, p.2))
        | _, _, _, _ => none
      | _ => none
    | _ => none
  | c :: rest => (parseStringBody rest).map (fun p => (c :: p.1, p.2))

/-- Parse the magnitude of a JSON number after the optional sign: a digit
run, optionally followed by a point and a second digit run. -/
def parseNumMag (neg : Bool) (cs1 : List Char) : Option (JVal × List Char) :=
  let p1 := takeDigits cs1
  if p1.1 = [] then none
  else
    match p1.2 with
    | '.' :: cs2 =>
      let p2 := takeDigits cs2
      if p2.1 = [] then none
      else
        let mag : Int := Int.ofNat (digitsVal (p1.1 ++ p2.1))
        some (.jnum ⟨if neg then -mag else mag, p2.1.length - 1⟩, p2.2)
    | rest =>
      let mag : Int := Int.ofNat (digitsVal p1.1)
      some (.jint (if neg then -mag else mag), rest)

/-- Parse a JSON number (integer or decimal).  Exponent forms are not
modelled; `Dec` covers the plain decimal reprs this program serializes. -/
def parseNumber : List Char → Option (JVal × List Char)
  | '-' :: cs1 => parseNumMag true cs1
  | cs1 => parseNumMag false cs1

mutual

/-- Fueled JSON value parser (the model of `json.loads`' grammar, minus
exponent forms).  Returns the value and the unconsumed input. -/
def parseValue : Nat → List Char → Option (JVal × List Char)
  | 0, _ => none
  | fuel + 1, cs =>
    match skipWs cs with
    | '\x7b' :: r =>
      match skipWs r with
      | '\x7d' :: r2 => some (.jobj [], r2)
      | r2 => (parseMembers fuel r2).map (fun p => (.jobj p.1, p.2))
    | '[' :: r =>
      match skipWs r with
      | ']' :: r2 => some (.jarr [], r2)
      | r2 => (parseElems fuel r2).map (fun p => (.jarr p.1, p.2))
    | '"' :: r => (parseStringBody r).map (fun p => (.jstr (String.mk p.1), p.2))
    | 't' :: 'r' :: 'u' :: 'e' :: r => some (.jbool true, r)
    | 'f' :: 'a' :: 'l' :: 's' :: 'e' :: r => some (.jbool false, r)
    | 'n' :: 'u' :: 'l' :: 'l' :: r => some (.jnull, r)
    | cs' => parseNumber cs'

/-- Parse the members of a JSON object, positioned at the first key's opening
quote; consumes the closing brace. -/
def parseMembers : Nat → List Char → Option (List (String × JVal) × List Char)
  | 0, _ => none
  | fuel + 1, cs =>
    match cs with
    | '"' :: r =>
      match parseStringBody r with
      | none => none
      | some (key, r1) =>
        match skipWs r1 with
        | ':' :: r2 =>
          match parseValue fuel r2 with
          | none => none
          | some (v, r3) =>
            match skipWs r3 with
            | ',' :: r4 =>
              (parseMembers fuel (skipWs r4)).map
                (fun p => ((String.mk key, v) :: p.1, p.2))
            | '\x7d' :: r4 => some ([(String.mk key, v)], r4)
            | _ => none
        | _ => none
    | _ => none

/-- Parse the elements of a JSON array, positioned at the first element;
consumes the closing bracket. -/
def parseElems : Nat → List Char → Option (List JVal × List Char)
  | 0, _ => none
  | fuel + 1, cs =>
    match parseValue fuel cs with
    | none => none
    | some (v, r) =>
      match skipWs r with
      | ',' :: r2 => (parseElems fuel (skipWs r2)).map (fun p => (v :: p.1, p.2))
      | ']' :: r2 => some ([v], r2)
      | _ => none

end

/-- `json.loads`: parse one value, then require only whitespace to remain.
The fuel `cs.length + 64` is enough for every input: each recursive call of
the parser follows at least one consumed character. -/
def loadsChars (cs : List Char) : Option JVal :=
  match parseValue (cs.length + 64) cs with
  | some (v, rest) => if skipWs rest = [] then some v else none
  | none => none

/-- `json.loads` on a string. -/
def loads (s : String) : Option JVal :=
  loadsChars s.data

/-- The message `str(e)` of a raised Python exception, as the orchestrator's
`except` blocks observe it. -/
structure PyErr where
  msg : String
deriving DecidableEq

/-- A `fastapi.HTTPException`. -/
structure HTTPException where
  status_code : Nat
  detail : String
deriving DecidableEq

/-- Python `str()` of an `HTTPException`: `"<status_code>: <detail>"`
(starlette renders it this way), which is what an enclosing
`except Exception as e` interpolates into its own message. -/
def HTTPException.str (e : HTTPException) : String :=
  String.mk (printNatChars e.status_code) ++ ": " ++ e.detail

/-- A Python `datetime.date`; `str()` is ISO `YYYY-MM-DD`. -/
structure PyDate where
  year : Nat
  month : Nat
  day : Nat
deriving DecidableEq

/-- Left-pad a digit run with zeros to width `w`. -/
def padZeros (w : Nat) (ds : List Char) : List Char :=
  List.replicate (w - ds.length) '0' ++ ds

/-- Characters of `str(d)` for a `datetime.date`. -/
def strPyDateChars (d : PyDate) : List Char :=
  padZeros 4 (printNatChars d.year) ++
    '-' :: (padZeros 2 (printNatChars d.month) ++ '-' :: padZeros 2 (printNatChars d.day))

/-- Python `str()` of a `datetime.date`. -/
def strPyDate (d : PyDate) : String :=
  String.mk (strPyDateChars d)

/-- Python `str()` applied to a nullable date column's value: `str(None)` is
the string `"None"`. -/
def strOptPyDate : Option PyDate → String
  | some d => strPyDate d
  | none => "None"

/-- A row of the `location` table as the ORM exposes it (`app/models.py`):
`geom_wkt` is the WKT property, `None` when the geometry is null. -/
structure Location where
  id : Int
  name : String
  geom_wkt : Option String
deriving DecidableEq

/-- A row of the `weather` table as the ORM exposes it (`app/models.py`),
with its optional joined `location`.  All columns except the primary key are
nullable (`Column(Date)`, `Column(Float)`, `location_id` with
`nullable=True`), so each is an `Option`. -/
structure Weather where
  id : Int
  date : Option PyDate
  temp_max : Option Dec
  temp_min : Option Dec
  precipitation : Option Dec
  location_id : Option Int
  location : Option Location
deriving DecidableEq

/-- The location sub-dict built at `main.py` lines 99-103 (and 130-134). -/
def locationDict (l : Location) : JVal :=
  .jobj [("id", .jint l.id), ("name", .jstr l.name),
    ("geom_wkt", match l.geom_wkt with | some s => .jstr s | none => .jnull)]

/-- The per-record dict built by `_get_weather_data` (`main.py` lines
92-104) and `_get_weather_data_by_date` (lines 123-135): `str()` is applied
to the date (so a null date becomes the string `"None"`), the nullable
numeric columns pass through as `None`/`null`. -/
def weatherDict (w : Weather) : JVal :=
  .jobj [("id", .jint w.id),
    ("date", .jstr (strOptPyDate w.date)),
    ("temp_max", match w.temp_max with | some d => .jnum d | none => .jnull),
    ("temp_min", match w.temp_min with | some d => .jnum d | none => .jnull),
    ("precipitation", match w.precipitation with | some d => .jnum d | none => .jnull),
    ("location_id", match w.location_id with | some i => .jint i | none => .jnull),
    ("location", match w.location with | some l => locationDict l | none => .jnull)]

/-- Oracle for the external database layer behind `db_utils.get_all_weather`
and `db_utils.get_weather_by_date` (the session acquisition included): a
fault anywhere in a query is an `Except.error` carrying `str(e)`.  The
query parameters are passed through untyped, as Python does. -/
structure Db where
  get_all_weather : JVal → JVal → Except PyErr (List Weather)
  get_weather_by_date : JVal → Except PyErr (Option Weather)

namespace WeatherService

/-- `WeatherService.get_weather_data` (`main.py` lines 51-59): any fault in
session acquisition or query is caught and re-raised as a 500
`HTTPException` whose detail embeds `str(e)`. -/
def get_weather_data (db : Db) (skip limit : JVal) : Except HTTPException (List Weather) :=
  match db.get_all_weather skip limit with
  | .ok rows => .ok rows
  | .error e => .error ⟨500, "Database error: " ++ e.msg⟩

/-- `WeatherService.get_weather_data_by_date` (`main.py` lines 61-72): a
missing record raises `HTTPException(404, "Date not found")` *inside* the
`try`, so the function's own `except Exception` catches it and re-raises a
500 whose detail embeds the 404's `str()`; genuine database faults take the
same 500 path. -/
def get_weather_data_by_date (db : Db) (date : JVal) : Except HTTPException Weather :=
  match db.get_weather_by_date date with
  | .ok (some w) => .ok w
  | .ok none => .error ⟨500, "Database error: " ++ HTTPException.str ⟨404, "Date not found"⟩⟩
  | .error e => .error ⟨500, "Database error: " ++ e.msg⟩

end WeatherService

/-- `_get_weather_data` (`main.py` lines 75-107): fetch through
`WeatherService.get_weather_data(offset, limit)` and convert every record to
its dict; an `HTTPException` escapes to the caller as a fault carrying its
`str()`. -/
def _get_weather_data (db : Db) (limit offset : JVal) : Except PyErr (List JVal) :=
  match WeatherService.get_weather_data db offset limit with
  | .ok rows => .ok (rows.map weatherDict)
  | .error e => .error ⟨HTTPException.str e⟩

/-- `_get_weather_data_by_date` (`main.py` lines 109-137). -/
def _get_weather_data_by_date (db : Db) (date : JVal) : Except PyErr JVal :=
  match WeatherService.get_weather_data_by_date db date with
  | .ok w => .ok (weatherDict w)
  | .error e => .error ⟨HTTPException.str e⟩

/-- Lookup in a dict that `json.loads` built from a (possibly
duplicate-keyed) JSON object: the last occurrence of a key wins. -/
def lookupLast (kvs : List (String × JVal)) (k : String) : Option JVal :=
  match kvs with
  | [] => none
  | (k', v) :: rest =>
    match lookupLast rest k with
    | some r => some r
    | none => if k' = k then some v else none

/-- Calling `_get_weather_data(**args)`: keyword binding against the
signature `(limit=100, offset=0)`; an unexpected keyword raises a
`TypeError`. -/
def call_get_weather_data (db : Db) (args : List (String × JVal)) : Except PyErr (List JVal) :=
  if args.all (fun kv => kv.1 = "limit" || kv.1 = "offset") then
    _get_weather_data db ((lookupLast args "limit").getD (.jint 100))
      ((lookupLast args "offset").getD (.jint 0))
  else .error ⟨"_get_weather_data() got an unexpected keyword argument"⟩

/-- Calling `_get_weather_data_by_date(**args)`: keyword binding against the
signature `(date)`. -/
def call_get_weather_data_by_date (db : Db) (args : List (String × JVal)) : Except PyErr JVal :=
  if args.all (fun kv => kv.1 = "date") then
    match lookupLast args "date" with
    | some d => _get_weather_data_by_date db d
    | none => .error ⟨"_get_weather_data_by_date() missing 1 required positional argument: date"⟩
  else .error ⟨"_get_weather_data_by_date() got an unexpected keyword argument"⟩

/-- The keys of the `TOOL_FUNCTIONS` registry (`main.py` lines 197-200). -/
def TOOL_FUNCTIONS : List String :=
  ["get_weather_data", "get_weather_data_by_date"]

/-- Dispatch `TOOL_FUNCTIONS[name](**args)` for a registered `name`.  A list
result (from `get_weather_data`) serializes as a JSON array. -/
def runToolFunction (db : Db) (name : String) (args : List (String × JVal)) : Except PyErr JVal :=
  if name = "get_weather_data" then
    match call_get_weather_data db args with
    | .ok rows => .ok (.jarr rows)
    | .error e => .error e
  else call_get_weather_data_by_date db args

/-- Chat-completion message roles. -/
inductive Role where
  | system | user | assistant | tool
deriving DecidableEq

/-- The `function` part of a tool call: the requested tool's name and its
JSON-encoded argument object. -/
structure ToolCallFunction where
  name : String
  arguments : String
deriving DecidableEq

/-- A tool-invocation request emitted by the model. -/
structure ToolCall where
  id : String
  function : ToolCallFunction
deriving DecidableEq

/-- One entry of a chat-completion message list. -/
structure ChatMessage where
  role : Role
  content : Option String
  tool_calls : List ToolCall
  tool_call_id : Option String
deriving DecidableEq

/-- The arguments of one `groq_client.chat.completions.create(...)` call. -/
structure ChatRequest where
  messages : List ChatMessage
  model : String
  tools : Option (List JVal)
  tool_choice : Option String
  temperature : Option Dec
  max_tokens : Option Nat

/-- `get_tool_schemas()` (`main.py` lines 151-194), transcribed as the JSON
value it denotes. -/
def get_tool_schemas : List JVal :=
  [.jobj [("type", .jstr "function"),
      ("function", .jobj [
        ("name", .jstr "get_weather_data"),
        ("description", .jstr "Get all available weather data from the database"),
        ("parameters", .jobj [
          ("type", .jstr "object"),
          ("properties", .jobj [
            ("limit", .jobj [("type", .jstr "integer"),
              ("description", .jstr "Maximum number of weather data to return"),
              ("default", .jint 100)]),
            ("offset", .jobj [("type", .jstr "integer"),
              ("description", .jstr "Number of weather data to skip"),
              ("default", .jint 0)])]),
          ("required", .jarr [])])])],
    .jobj [("type", .jstr "function"),
      ("function", .jobj [
        ("name", .jstr "get_weather_data_by_date"),
        ("description", .jstr "Get weather data for a specific date from the database"),
        ("parameters", .jobj [
          ("type", .jstr "object"),
          ("properties", .jobj [
            ("date", .jobj [("type", .jstr "string"),
              ("description", .jstr "The date for which weather data is required (format: YYYY-MM-DD)")])]),
          ("required", .jarr [.jstr "date"])])])]]

/-- The single choice's message of a chat-completion response
(`response.choices[0].message`). -/
structure ProviderMessage where
  content : Option String
  tool_calls : List ToolCall

/-- Oracle for the Groq client: `create` either returns the reply message or
raises (transport, auth, rate-limit, ... faults). -/
structure Provider where
  create : ChatRequest → Except PyErr ProviderMessage

/-- The system prompt of the first call (`main.py` line 215). -/
def systemPromptTools : String :=
  "You are a helpful weather assistant. You can help users find weather information. When users ask about weather data, use the available tools to get the information. Always provide helpful and informative responses."

/-- The system prompt of the second call (`main.py` line 270). -/
def systemPromptFinal : String :=
  "You are a helpful weather assistant. Provide clear, natural responses based on the tool results. Format the weather information in a user-friendly way."

/-- The apology reply the top-level `except` builds (`main.py` line 322). -/
def apologyReply (m : String) : String :=
  "I encountered an error while processing your request: " ++ m ++
    ". Please try again or contact support if this continues."

/-- Model of `str(e)` for the `json.JSONDecodeError` that
`json.loads(tool_call.function.arguments)` raises on malformed input.  (The
real message's line/column depend on the input; no theorem depends on the
text.) -/
def jsonDecodeErrMsg : String :=
  "Expecting value: line 1 column 1 (char 0)"

/-- Model of `str(e)` for the `TypeError` raised by `f(**args)` when `args`
is not a mapping. -/
def starArgsNotMappingMsg : String :=
  "argument after ** must be a mapping"

/-- Model of `str(e)` for the `TypeError` raised by `result[:100]` when the
final reply's content is `None` (`main.py` line 312). -/
def subscriptNoneMsg : String :=
  "NoneType object is not subscriptable"

/-- The first chat-completion request (`main.py` lines 211-227). -/
def firstRequest (user_message : String) : ChatRequest :=
  ⟨[⟨.system, some systemPromptTools, [], none⟩, ⟨.user, some user_message, [], none⟩],
    "llama3-70b-8192", some get_tool_schemas, some "auto", some ⟨7, 0⟩, some 1000⟩

/-- The outcome recorded for one tool call (`main.py` lines 248-264): the
`tool_call_id` with either a `result` or an `error` message — never both. -/
structure ToolResult where
  tool_call_id : String
  outcome : Except String JVal

/-- One iteration of the tool-execution loop (`main.py` lines 238-264).
`json.loads` runs at line 240, *outside* the per-invocation `try`, so a
malformed argument string raises out of the loop; everything after the
registry check at line 245 is inside the `try` and is recorded as this
invocation's error instead of propagating. -/
def execToolCall (db : Db) (tc : ToolCall) : Except PyErr ToolResult :=
  match loads tc.function.arguments with
  | none => .error ⟨jsonDecodeErrMsg⟩
  | some args =>
    if tc.function.name ∈ TOOL_FUNCTIONS then
      match args with
      | .jobj kvs =>
        match runToolFunction db tc.function.name kvs with
        | .ok r => .ok ⟨tc.id, .ok r⟩
        | .error e => .ok ⟨tc.id, .error e.msg⟩
      | _ => .ok ⟨tc.id, .error starArgsNotMappingMsg⟩
    else .ok ⟨tc.id, .error ("Unknown function: " ++ tc.function.name)⟩

/-- The tool-execution loop over the batch, in request order; a raised fault
(malformed JSON arguments) aborts the remainder. -/
def runToolCalls (db : Db) : List ToolCall → Except PyErr (List ToolResult)
  | [] => .ok []
  | tc :: rest =>
    match execToolCall db tc with
    | .error e => .error e
    | .ok r =>
      match runToolCalls db rest with
      | .error e => .error e
      | .ok rs => .ok (r :: rs)

/-- `tool_result.get("result", tool_result.get("error"))` (`main.py` line
294). -/
def toolResultContent (tr : ToolResult) : JVal :=
  match tr.outcome with
  | .ok v => v
  | .error e => .jstr e

/-- One `tool`-role message (`main.py` lines 293-299): the originating call
id and the content serialized by `json.dumps(content, default=str)`. -/
def toolMessage (tr : ToolResult) : ChatMessage :=
  ⟨.tool, some (dumps (toolResultContent tr)), [], some tr.tool_call_id⟩

/-- The `assistant` message echoing the first reply (`main.py` lines
276-289): its content (`or ""`) and its tool calls rebuilt verbatim
(same id, name and argument string). -/
def assistantEcho (message : ProviderMessage) : ChatMessage :=
  ⟨.assistant, some (message.content.getD ""),
    message.tool_calls.map (fun tc => ⟨tc.id, ⟨tc.function.name, tc.function.arguments⟩⟩), none⟩

/-- The follow-up message list (`main.py` lines 266-299). -/
def followupMessages (user_message : String) (message : ProviderMessage)
    (tool_results : List ToolResult) : List ChatMessage :=
  [⟨.system, some systemPromptFinal, [], none⟩,
    ⟨.user, some user_message, [], none⟩,
    assistantEcho message] ++ tool_results.map toolMessage

/-- The second chat-completion request (`main.py` lines 304-309): no
`tools`, no `tool_choice`. -/
def secondRequest (msgs : List ChatMessage) : ChatRequest :=
  ⟨msgs, "llama3-70b-8192", none, none, some ⟨7, 0⟩, some 1000⟩

/-- `handle_chat_with_tools` (`main.py` lines 203-322).  Besides the return
value (`None` exactly when the first reply has no tool calls and a `None`
content), it also yields the list of chat-completion requests issued, so
that call counts and call arguments are statable.  The top-level
`except Exception` turns every raised fault into the apology reply. -/
def handleChatWithTools (p : Provider) (db : Db) (user_message : String) :
    Option String × List ChatRequest :=
  let req1 := firstRequest user_message
  match p.create req1 with
  | .error e => (some (apologyReply e.msg), [req1])
  | .ok message =>
    if message.tool_calls.isEmpty then
      (message.content, [req1])
    else
      match runToolCalls db message.tool_calls with
      | .error e => (some (apologyReply e.msg), [req1])
      | .ok tool_results =>
        let req2 := secondRequest (followupMessages user_message message tool_results)
        match p.create req2 with
        | .error e => (some (apologyReply e.msg), [req1, req2])
        | .ok final =>
          match final.content with
          | some result => (some result, [req1, req2])
          | none => (some (apologyReply subscriptNoneMsg), [req1, req2])

/-- What the `/chat` route hands back to FastAPI. -/
inductive ChatResponse where
  | ok : Option String → ChatResponse
  | httpError : Nat → String → ChatResponse
deriving DecidableEq

/-- The `POST /chat` handler (`main.py` lines 329-340), for bodies whose
`message` field is absent or a string: `message.get("message", "")` then a
truthiness check gate the orchestrator behind a 400.  The issued provider
requests are passed through so that "the orchestrator is never invoked" is
statable as an empty request list. -/
def chat (p : Provider) (db : Db) (body_message : Option String) :
    ChatResponse × List ChatRequest :=
  let user_message := body_message.getD ""
  if user_message = "" then (.httpError 400 "Message is required", [])
  else
    let r := handleChatWithTools p db user_message
    (.ok r.1, r.2)

/-- Events on the database session owned by one `get_db` generator. -/
inductive SessionEvent where
  | acquire | close
deriving DecidableEq

/-- States of the `get_db` generator (`app/db_utils.py` lines 5-10). -/
inductive GenDbState where
  | created | suspendedAtYield | finished
deriving DecidableEq

/-- Ways a caller can drive the generator one step. -/
inductive GenAction where
  | next | closeGen
deriving DecidableEq

/-- One step of driving `get_db`: the first `next` runs `SessionLocal()`
(the acquire) and suspends at `yield db`; any later resume or close runs the
`finally`, which closes the session. -/
def genDbStep : GenDbState → GenAction → GenDbState × List SessionEvent
  | .created, .next => (.suspendedAtYield, [.acquire])
  | .created, .closeGen => (.finished, [])
  | .suspendedAtYield, _ => (.finished, [.close])
  | .finished, _ => (.finished, [])

/-- The session events `WeatherService` performs itself (`main.py` lines 55
and 65): `db = db_utils.get_db().__next__()` advances a fresh generator once
to obtain the session, and the function then returns or raises without ever
driving that generator again — release is left to the abandoned generator's
finalization by the runtime. -/
def weatherServiceSessionEvents : List SessionEvent :=
  (genDbStep .created .next).2

/-- The state the abandoned generator is left in by `WeatherService` on
every exit path. -/
def weatherServiceGenFinalState : GenDbState :=
  (genDbStep .created .next).1

/-- The session events of a route handler using `Depends(get_db)`
(`app/routes/weather.py`, `app/routes/location.py`): FastAPI advances the
generator, runs the handler, then closes the generator on every exit path,
success or fault. -/
def dependsRouteSessionEvents : List SessionEvent :=
  (genDbStep .created .next).2 ++ (genDbStep .suspendedAtYield .closeGen).2

/-- May a JSON value legally end right here?  True at end of input and in
front of a separator or closer — every position at which the serializer
places a value. -/
def stopCh : List Char → Bool
  | [] => true
  | c :: _ => c = ',' || c = '\x7d' || c = ']'

/-- `parseValue` at any fuel `f + k` consumes exactly `w` as the value `v`,
whatever delimited input follows. -/
def ParsesV (k : Nat) (w : List Char) (v : JVal) : Prop :=
  ∀ f rest, stopCh rest = true → parseValue (f + k) (w ++ rest) = some (v, rest)

/-- `parseMembers` at any fuel `f + k` consumes exactly `w` (closing brace
included) as the member list `kvs`, whatever delimited input follows. -/
def ParsesM (k : Nat) (w : List Char) (kvs : List (String × JVal)) : Prop :=
  ∀ f rest, stopCh rest = true → parseMembers (f + k) (w ++ rest) = some (kvs, rest)

/-- A database oracle whose queries succeed and find nothing. -/
def emptyDb : Db :=
  ⟨fun _ _ => .ok [], fun _ => .ok none⟩

/-- A provider oracle that always raises. -/
def failingProvider : Provider :=
  ⟨fun _ => .error ⟨"connection error"⟩⟩

/-- A provider oracle that answers directly, with no tool calls. -/
def directProvider : Provider :=
  ⟨fun _ => .ok ⟨some "plain answer", []⟩⟩

/-- A provider oracle whose first (tools-offering) reply requests the
registered tool `get_weather_data` with the valid argument string `"{}"`,
and whose second reply is a plain answer. -/
def toolRequestingProvider : Provider :=
  ⟨fun req =>
    if req.tools.isSome then
      .ok ⟨none, [⟨"call_1", ⟨"get_weather_data", "\x7b\x7d"⟩⟩]⟩
    else .ok ⟨some "final answer", []⟩⟩

/-- A provider oracle whose first reply requests a registered tool with the
malformed argument string `"{bad"`. -/
def badArgsProvider : Provider :=
  ⟨fun req =>
    if req.tools.isSome then
      .ok ⟨none, [⟨"call_1", ⟨"get_weather_data", "\x7bbad"⟩⟩]⟩
    else .ok ⟨some "final answer", []⟩⟩

/-- A provider oracle whose first reply requests the unregistered tool
`frobnicate` with the malformed argument string `"{bad"`. -/
def unknownBadArgsProvider : Provider :=
  ⟨fun req =>
    if req.tools.isSome then
      .ok ⟨none, [⟨"call_1", ⟨"frobnicate", "\x7bbad"⟩⟩]⟩
    else .ok ⟨some "final answer", []⟩⟩

/-- A provider oracle whose first reply requests the unregistered tool
`frobnicate` with the valid argument string `"{}"`. -/
def unknownToolProvider : Provider :=
  ⟨fun req =>
    if req.tools.isSome then
      .ok ⟨none, [⟨"call_1", ⟨"frobnicate", "\x7b\x7d"⟩⟩]⟩
    else .ok ⟨some "final answer", []⟩⟩

/-- Concrete location for witnesses. -/
def witnessLocation : Location :=
  ⟨1, "Colombo", some "POINT (79.8612 6.9271)"⟩

/-- Concrete weather record for witnesses: 2024-01-01, max 30.0, min 24.0,
precipitation 2.5, at `witnessLocation`. -/
def witnessWeather : Weather :=
  ⟨7, some ⟨2024, 1, 1⟩, some ⟨300, 0⟩, some ⟨240, 0⟩, some ⟨25, 0⟩, some 1,
    some witnessLocation⟩

example : loads "\x7b\x7d" = some (.jobj []) := rfl
example : loads " \x7b\"a\": 12, \"b\": [1.5, null, true]\x7d " =
    some (.jobj [("a", .jint 12), ("b", .jarr [.jnum ⟨15, 0⟩, .jnull, .jbool true])]) := rfl
example : loads "\x7bbad" = none := rfl

/-! ## Helper lemmas about the tool-execution loop -/

theorem execToolCall_ok_id (db : Db) (tc : ToolCall) (r : ToolResult)
    (h : execToolCall db tc = .ok r) : r.tool_call_id = tc.id := by
  unfold execToolCall at h
  rcases ha : loads tc.function.arguments with _ | args <;> rw [ha] at h
  · cases h
  · dsimp only at h
    by_cases hn : tc.function.name ∈ TOOL_FUNCTIONS
    · rw [if_pos hn] at h
      rcases args with _ | b | i | d | s | xs | kvs | s <;>
        first
          | (cases h; rfl)
          | (dsimp only at h
             rcases h2 : runToolFunction db tc.function.name kvs with e | v <;> rw [h2] at h <;>
               cases h <;> rfl)
    · rw [if_neg hn] at h
      cases h
      rfl

theorem execToolCall_ok_of_parse (db : Db) (tc : ToolCall)
    (h : (loads tc.function.arguments).isSome) :
    ∃ r, execToolCall db tc = .ok r ∧ r.tool_call_id = tc.id := by
  rcases Option.isSome_iff_exists.mp h with ⟨args, ha⟩
  unfold execToolCall
  rw [ha]
  dsimp only
  by_cases hn : tc.function.name ∈ TOOL_FUNCTIONS
  · rw [if_pos hn]
    rcases args with _ | b | i | d | s | xs | kvs | s <;>
      first
        | exact ⟨_, rfl, rfl⟩
        | (dsimp only
           rcases h2 : runToolFunction db tc.function.name kvs with e | v <;> exact ⟨_, rfl, rfl⟩)
  · rw [if_neg hn]
    exact ⟨_, rfl, rfl⟩

theorem execToolCall_unknown (db : Db) (tc : ToolCall) (args : JVal)
    (ha : loads tc.function.arguments = some args)
    (hn : tc.function.name ∉ TOOL_FUNCTIONS) :
    execToolCall db tc = .ok ⟨tc.id, .error ("Unknown function: " ++ tc.function.name)⟩ := by
  unfold execToolCall
  rw [ha]
  dsimp only
  rw [if_neg hn]

theorem runToolCalls_ids (db : Db) (tcs : List ToolCall) (rs : List ToolResult)
    (h : runToolCalls db tcs = .ok rs) :
    rs.map ToolResult.tool_call_id = tcs.map ToolCall.id := by
  induction tcs generalizing rs with
  | nil =>
    simp only [runToolCalls, Except.ok.injEq] at h
    rw [← h]
    rfl
  | cons tc rest ih =>
    unfold runToolCalls at h
    rcases he : execToolCall db tc with e | r <;> rw [he] at h
    · cases h
    · rcases hrs : runToolCalls db rest with e | rs' <;> rw [hrs] at h
      · cases h
      · cases h
        simp [execToolCall_ok_id db tc r he, ih rs' hrs]

theorem runToolCalls_ok_of_parse (db : Db) (tcs : List ToolCall)
    (h : ∀ tc ∈ tcs, (loads tc.function.arguments).isSome) :
    ∃ rs, runToolCalls db tcs = .ok rs ∧
      rs.map ToolResult.tool_call_id = tcs.map ToolCall.id := by
  induction tcs with
  | nil => exact ⟨[], rfl, rfl⟩
  | cons tc rest ih =>
    obtain ⟨r, hr, hid⟩ := execToolCall_ok_of_parse db tc (h tc (by simp))
    obtain ⟨rs, hrs, hmap⟩ := ih (fun tc' h' => h tc' (by simp [h']))
    exact ⟨r :: rs, by simp [runToolCalls, hr, hrs], by simp [hid, hmap]⟩

theorem runToolCalls_mem (db : Db) (tcs : List ToolCall) (rs : List ToolResult)
    (hok : runToolCalls db tcs = .ok rs) (tc : ToolCall) (htc : tc ∈ tcs) :
    ∃ r, execToolCall db tc = .ok r ∧ r ∈ rs := by
  induction tcs generalizing rs with
  | nil => cases htc
  | cons a rest ih =>
    unfold runToolCalls at hok
    rcases he : execToolCall db a with e | r <;> rw [he] at hok
    · cases hok
    · rcases hrs : runToolCalls db rest with e | rs' <;> rw [hrs] at hok
      · cases hok
      · cases hok
        rcases List.mem_cons.mp htc with rfl | hmem
        · exact ⟨r, he, by simp⟩
        · obtain ⟨r', hr', hmem'⟩ := ih rs' hrs hmem
          exact ⟨r', hr', by simp [hmem']⟩

theorem runToolCalls_abort (db : Db) (pre : List ToolCall) (tc : ToolCall)
    (post : List ToolCall) (hbad : loads tc.function.arguments = none)
    (hpre : ∀ tc' ∈ pre, (loads tc'.function.arguments).isSome) :
    runToolCalls db (pre ++ tc :: post) = .error ⟨jsonDecodeErrMsg⟩ := by
  induction pre with
  | nil => simp [runToolCalls, execToolCall, hbad]
  | cons a pre ih =>
    obtain ⟨r, hr, _⟩ := execToolCall_ok_of_parse db a (hpre a (by simp))
    simp [runToolCalls, hr, ih (fun x hx => hpre x (by simp [hx]))]

theorem handleChat_two_calls (p : Provider) (db : Db) (m : String)
    (message : ProviderMessage) (trs : List ToolResult)
    (h1 : p.create (firstRequest m) = .ok message)
    (hne : message.tool_calls ≠ [])
    (h2 : runToolCalls db message.tool_calls = .ok trs) :
    (handleChatWithTools p db m).2 =
      [firstRequest m, secondRequest (followupMessages m message trs)] ∧
    (handleChatWithTools p db m).1.isSome := by
  rcases hM : message.tool_calls with _ | ⟨tc, rest⟩
  · exact absurd hM hne
  rw [hM] at h2
  simp only [handleChatWithTools, h1, hM, List.isEmpty_cons, Bool.false_eq_true, if_false, h2]
  rcases h3 : p.create (secondRequest (followupMessages m message trs)) with e | fin
  · exact ⟨rfl, rfl⟩
  · dsimp only
    rcases h4 : fin.content with _ | s <;> exact ⟨rfl, rfl⟩

theorem handleChat_cases (p : Provider) (db : Db) (m : String) :
    (∃ message, p.create (firstRequest m) = .ok message ∧ message.tool_calls = [] ∧
      (handleChatWithTools p db m).1 = message.content) ∨
    (handleChatWithTools p db m).1.isSome := by
  simp only [handleChatWithTools]
  rcases h1 : p.create (firstRequest m) with e | message
  · right; simp
  · dsimp only
    rcases hM : message.tool_calls with _ | ⟨tc, rest⟩
    · exact Or.inl ⟨message, rfl, hM, by simp [hM]⟩
    · right
      simp only [List.isEmpty_cons, Bool.false_eq_true, if_false]
      rcases h2 : runToolCalls db (tc :: rest) with e | trs
      · simp
      · dsimp only
        rcases h3 : p.create (secondRequest (followupMessages m message trs)) with e | fin
        · simp
        · dsimp only
          rcases h4 : fin.content with _ | s <;> simp

theorem assistantEcho_eq (message : ProviderMessage) :
    assistantEcho message =
      ⟨.assistant, some (message.content.getD ""), message.tool_calls, none⟩ := by
  unfold assistantEcho
  have h : (fun tc : ToolCall => (⟨tc.id, ⟨tc.function.name, tc.function.arguments⟩⟩ : ToolCall)) =
      fun tc => tc := rfl
  rw [h, List.map_id']

/-! ## Claim theorems -/

/-- Claim C1: for every user message, any fault raised by the provider
client at either chat-completion call, or during the tool batch between
them, is caught by the orchestrator's top-level handler and converted into a
text reply embedding the fault's message; consequently `POST /chat` with a
non-empty message answers 200 with that string when the provider throws. -/
theorem c1_orchestrator_catches_provider_faults (p : Provider) (db : Db) (m : String)
    (hm : m ≠ "") :
    (∀ e, p.create (firstRequest m) = .error e →
      (handleChatWithTools p db m).1 = some (apologyReply e.msg)) ∧
    (∀ message e, p.create (firstRequest m) = .ok message →
      runToolCalls db message.tool_calls = .error e →
      (handleChatWithTools p db m).1 = some (apologyReply e.msg)) ∧
    (∀ message tool_results e, p.create (firstRequest m) = .ok message →
      message.tool_calls ≠ [] →
      runToolCalls db message.tool_calls = .ok tool_results →
      p.create (secondRequest (followupMessages m message tool_results)) = .error e →
      (handleChatWithTools p db m).1 = some (apologyReply e.msg)) ∧
    (∀ s, ∃ pre post, apologyReply s = pre ++ s ++ post) ∧
    (∀ e, p.create (firstRequest m) = .error e →
      (chat p db (some m)).1 = .ok (some (apologyReply e.msg))) := by
  refine ⟨?_, ?_, ?_, ?_, ?_⟩
  · intro e he
    simp [handleChatWithTools, he]
  · intro message e h1 h2
    rcases hM : message.tool_calls with _ | ⟨tc, rest⟩
    · rw [hM] at h2
      simp [runToolCalls] at h2
    · rw [hM] at h2
      simp [handleChatWithTools, h1, hM, h2]
  · intro message tool_results e h1 hne h2 h3
    rcases hM : message.tool_calls with _ | ⟨tc, rest⟩
    · exact absurd hM hne
    · rw [hM] at h2
      simp [handleChatWithTools, h1, hM, h2, h3]
  · intro s
    exact ⟨"I encountered an error while processing your request: ",
      ". Please try again or contact support if this continues.", rfl⟩
  · intro e he
    simp [chat, hm, handleChatWithTools, he]

/-- Witness for C1 at a provider that raises on the first call. -/
theorem c1_witness :
    (handleChatWithTools failingProvider emptyDb "hello").1 =
      some (apologyReply "connection error") :=
  (c1_orchestrator_catches_provider_faults failingProvider emptyDb "hello"
    (by decide)).1 ⟨"connection error"⟩ rfl

/-- Claim C4: when the first reply carries no tool calls, the provider is
called exactly once and the orchestrator returns that reply's text
verbatim. -/
theorem c4_no_tools_single_call_returns_verbatim (p : Provider) (db : Db) (m : String)
    (message : ProviderMessage)
    (h1 : p.create (firstRequest m) = .ok message)
    (h2 : message.tool_calls = []) :
    handleChatWithTools p db m = (message.content, [firstRequest m]) := by
  simp [handleChatWithTools, h1, h2]

/-- Witness for C4 at a provider that answers directly. -/
theorem c4_witness :
    handleChatWithTools directProvider emptyDb "hello" =
      (some "plain answer", [firstRequest "hello"]) :=
  c4_no_tools_single_call_returns_verbatim directProvider emptyDb "hello"
    ⟨some "plain answer", []⟩ rfl rfl

/-- Claim C6: a second chat-completion request within a pass never offers
tool descriptors nor a tool-choice mode, and no pass makes more than two
provider calls. -/
theorem c6_second_call_without_tools (p : Provider) (db : Db) (m : String) :
    (∀ req ∈ (handleChatWithTools p db m).2.drop 1,
      req.tools = none ∧ req.tool_choice = none) ∧
    (handleChatWithTools p db m).2.length ≤ 2 := by
  simp only [handleChatWithTools]
  rcases h1 : p.create (firstRequest m) with e | message
  · simp
  · dsimp only
    rcases hM : message.tool_calls with _ | ⟨tc, rest⟩
    · simp
    · simp only [List.isEmpty_cons, Bool.false_eq_true, if_false]
      rcases h2 : runToolCalls db (tc :: rest) with e | trs
      · simp
      · dsimp only
        rcases h3 : p.create (secondRequest (followupMessages m message trs)) with e | fin
        · dsimp only
          refine ⟨?_, by simp⟩
          intro req hreq
          simp only [List.drop_succ_cons, List.drop_zero, List.mem_singleton] at hreq
          subst hreq
          exact ⟨rfl, rfl⟩
        · dsimp only
          rcases h4 : fin.content with _ | s <;>
            · dsimp only
              refine ⟨?_, by simp⟩
              intro req hreq
              simp only [List.drop_succ_cons, List.drop_zero, List.mem_singleton] at hreq
              subst hreq
              exact ⟨rfl, rfl⟩

/-- Witness for C6 on a run whose first reply requests one tool. -/
theorem c6_witness :
    (secondRequest (followupMessages "hi"
        ⟨none, [⟨"call_1", ⟨"get_weather_data", "\x7b\x7d"⟩⟩]⟩
        [⟨"call_1", Except.ok (JVal.jarr [])⟩])).tools = none ∧
    (secondRequest (followupMessages "hi"
        ⟨none, [⟨"call_1", ⟨"get_weather_data", "\x7b\x7d"⟩⟩]⟩
        [⟨"call_1", Except.ok (JVal.jarr [])⟩])).tool_choice = none :=
  (c6_second_call_without_tools toolRequestingProvider emptyDb "hi").1 _
    (List.mem_singleton.mpr rfl)

/-- Claim C7: `POST /chat` answers 400 without invoking the orchestrator
(no provider request is ever issued) when the `message` field is missing or
empty, and otherwise answers 200 with the orchestrator's reply — a string,
provided the provider's tool-free replies carry text. -/
theorem c7_chat_validation_gate (p : Provider) (db : Db) :
    chat p db none = (.httpError 400 "Message is required", []) ∧
    chat p db (some "") = (.httpError 400 "Message is required", []) ∧
    (∀ m, m ≠ "" → chat p db (some m) =
      (.ok (handleChatWithTools p db m).1, (handleChatWithTools p db m).2)) ∧
    (∀ m, m ≠ "" →
      (∀ req message, p.create req = .ok message → message.tool_calls = [] →
        message.content.isSome) →
      ∃ s, (chat p db (some m)).1 = .ok (some s)) := by
  refine ⟨rfl, rfl, ?_, ?_⟩
  · intro m hm
    simp [chat, hm]
  · intro m hm hc
    rcases handleChat_cases p db m with ⟨message, h1, hM, heq⟩ | hs
    · rcases Option.isSome_iff_exists.mp (hc _ _ h1 hM) with ⟨s, hs⟩
      exact ⟨s, by simp [chat, hm, heq, hs]⟩
    · rcases Option.isSome_iff_exists.mp hs with ⟨s, hs⟩
      exact ⟨s, by simp [chat, hm, hs]⟩

/-- Witness for C7: the 400 gate and the 200 pass-through at one concrete
provider. -/
theorem c7_witness :
    chat directProvider emptyDb (some "hello") =
      (.ok (handleChatWithTools directProvider emptyDb "hello").1,
        (handleChatWithTools directProvider emptyDb "hello").2) ∧
    chat directProvider emptyDb none = (.httpError 400 "Message is required", []) :=
  ⟨(c7_chat_validation_gate directProvider emptyDb).2.2.1 "hello" (by decide),
    (c7_chat_validation_gate directProvider emptyDb).1⟩

/-- Counterexample to C2: the first reply requests the registered tool
`get_weather_data` with the malformed argument string `"{bad"`; the fault is
not recorded as that invocation's result — the batch aborts, the second
provider call never happens (one request in the log), and the pass degrades
to the top-level apology reply. -/
theorem c2_counterexample :
    badArgsProvider.create (firstRequest "What is the weather") =
      .ok ⟨none, [⟨"call_1", ⟨"get_weather_data", "\x7bbad"⟩⟩]⟩ ∧
    loads "\x7bbad" = none ∧
    handleChatWithTools badArgsProvider emptyDb "What is the weather" =
      (some (apologyReply jsonDecodeErrMsg), [firstRequest "What is the weather"]) :=
  ⟨rfl, rfl, rfl⟩

/-- Counterexample to C5: an unknown tool name whose argument string is also
malformed JSON is not recorded as an `UnknownToolError` result — `json.loads`
runs first and aborts the pass, so no second provider call happens. -/
theorem c5_counterexample :
    unknownBadArgsProvider.create (firstRequest "hi") =
      .ok ⟨none, [⟨"call_1", ⟨"frobnicate", "\x7bbad"⟩⟩]⟩ ∧
    "frobnicate" ∉ TOOL_FUNCTIONS ∧
    handleChatWithTools unknownBadArgsProvider emptyDb "hi" =
      (some (apologyReply jsonDecodeErrMsg), [firstRequest "hi"]) :=
  ⟨rfl, by decide, rfl⟩

/-- Claim C9 (corrected): the `get_db` generator releases its session
whenever it is resumed past the yield or closed — so the `Depends(get_db)`
routes release on every exit path — but the `WeatherService` lookups only
advance a fresh generator to its yield and never close it: no `close` event
occurs on any of their own exit paths. -/
theorem c9_session_release_by_generator_not_service :
    ((genDbStep .suspendedAtYield .next).2 = [SessionEvent.close] ∧
      (genDbStep .suspendedAtYield .closeGen).2 = [SessionEvent.close]) ∧
    dependsRouteSessionEvents = [SessionEvent.acquire, SessionEvent.close] ∧
    weatherServiceSessionEvents = [SessionEvent.acquire] := by decide

/-- Counterexample to C9 as stated: the session events performed by a
`WeatherService` call contain no `close` — the generator is abandoned while
still suspended at its yield. -/
theorem c9_counterexample :
    SessionEvent.close ∉ weatherServiceSessionEvents ∧
    weatherServiceGenFinalState = GenDbState.suspendedAtYield := by decide

/-- Claim C10: `WeatherService.get_weather_data_by_date` never lets its
internal 404 reach a caller: every fault it raises is a 500, and the
missing-record case produces detail `"Database error: 404: Date not
found"`, embedding the original 404 message. -/
theorem c10_not_found_surfaces_as_500 (db : Db) (date : JVal) :
    (∀ e, WeatherService.get_weather_data_by_date db date = .error e →
      e.status_code = 500) ∧
    (db.get_weather_by_date date = .ok none →
      WeatherService.get_weather_data_by_date db date =
        .error ⟨500, "Database error: 404: Date not found"⟩) := by
  constructor
  · intro e he
    unfold WeatherService.get_weather_data_by_date at he
    rcases h : db.get_weather_by_date date with e' | w
    · rw [h] at he
      simp only [Except.error.injEq] at he
      rw [← he]
    · rcases w with _ | w
      · rw [h] at he
        simp only [Except.error.injEq] at he
        rw [← he]
      · rw [h] at he
        simp at he
  · intro h
    unfold WeatherService.get_weather_data_by_date
    rw [h]
    rfl

/-- Witness for C10 at a database with no record for the date. -/
theorem c10_witness :
    WeatherService.get_weather_data_by_date emptyDb (.jstr "2024-01-01") =
      .error ⟨500, "Database error: 404: Date not found"⟩ :=
  (c10_not_found_surfaces_as_500 emptyDb (.jstr "2024-01-01")).2 rfl

/-- Claim C2 (amended): a fault arising inside a single invocation *after*
its arguments parse as JSON — an unknown tool name or an exception from the
tool function — never aborts the batch: every invocation is recorded, in
request order, and the pass proceeds to the second provider call.  Malformed
JSON arguments, however, are raised at `json.loads` outside the
per-invocation handler: they abort the whole batch, no second provider call
happens, and the pass degrades to the top-level apology reply. -/
theorem c2_amended_post_parse_faults_do_not_abort (p : Provider) (db : Db) (m : String)
    (message : ProviderMessage)
    (h1 : p.create (firstRequest m) = .ok message)
    (hne : message.tool_calls ≠ []) :
    ((∀ tc ∈ message.tool_calls, (loads tc.function.arguments).isSome) →
      ∃ rs, runToolCalls db message.tool_calls = .ok rs ∧
        rs.map ToolResult.tool_call_id = message.tool_calls.map ToolCall.id ∧
        (handleChatWithTools p db m).2.length = 2) ∧
    (∀ pre tc post, message.tool_calls = pre ++ tc :: post →
      loads tc.function.arguments = none →
      (∀ tc' ∈ pre, (loads tc'.function.arguments).isSome) →
      runToolCalls db message.tool_calls = .error ⟨jsonDecodeErrMsg⟩ ∧
      (handleChatWithTools p db m).1 = some (apologyReply jsonDecodeErrMsg) ∧
      (handleChatWithTools p db m).2 = [firstRequest m]) := by
  constructor
  · intro hparse
    obtain ⟨rs, hrs, hmap⟩ := runToolCalls_ok_of_parse db message.tool_calls hparse
    refine ⟨rs, hrs, hmap, ?_⟩
    rw [(handleChat_two_calls p db m message rs h1 hne hrs).1]
    rfl
  · intro pre tc post hsplit hbad hpre
    have habort : runToolCalls db message.tool_calls = .error ⟨jsonDecodeErrMsg⟩ := by
      rw [hsplit]
      exact runToolCalls_abort db pre tc post hbad hpre
    refine ⟨habort, ?_, ?_⟩
    · rcases hM : message.tool_calls with _ | ⟨a, rest⟩
      · exact absurd hM hne
      · rw [hM] at habort
        simp [handleChatWithTools, h1, hM, habort]
    · rcases hM : message.tool_calls with _ | ⟨a, rest⟩
      · exact absurd hM hne
      · rw [hM] at habort
        simp [handleChatWithTools, h1, hM, habort]

/-- Witness for the amended C2: with parseable arguments the batch completes
and the second provider call is made. -/
theorem c2_witness :
    (handleChatWithTools toolRequestingProvider emptyDb "hi").2.length = 2 := by
  obtain ⟨rs, h1, h2, h3⟩ :=
    (c2_amended_post_parse_faults_do_not_abort toolRequestingProvider emptyDb "hi"
      ⟨none, [⟨"call_1", ⟨"get_weather_data", "\x7b\x7d"⟩⟩]⟩ rfl (by decide)).1 (by decide)
  exact h3

/-- Claim C3: when the first reply carries tool calls and the batch
completes, the second request's message list is exactly one fresh system
message, the original user message, one assistant message echoing the
first-pass content and its tool-invocation requests verbatim, then one
tool-role message per result in request order, each carrying its call id and
its content serialized by `json.dumps`; under distinct request ids every
tool message's id matches exactly one request of that assistant message, and
non-serializable content falls back to its `str()` instead of raising. -/
theorem c3_followup_message_structure (p : Provider) (db : Db) (m : String)
    (message : ProviderMessage) (tool_results : List ToolResult)
    (h1 : p.create (firstRequest m) = .ok message)
    (hne : message.tool_calls ≠ [])
    (h2 : runToolCalls db message.tool_calls = .ok tool_results) :
    (handleChatWithTools p db m).2.drop 1 =
      [secondRequest (followupMessages m message tool_results)] ∧
    followupMessages m message tool_results =
      ⟨.system, some systemPromptFinal, [], none⟩ ::
        ⟨.user, some m, [], none⟩ ::
        ⟨.assistant, some (message.content.getD ""), message.tool_calls, none⟩ ::
        tool_results.map toolMessage ∧
    tool_results.map ToolResult.tool_call_id = message.tool_calls.map ToolCall.id ∧
    (∀ tr ∈ tool_results,
      toolMessage tr = ⟨.tool, some (dumps (toolResultContent tr)), [], some tr.tool_call_id⟩) ∧
    ((message.tool_calls.map ToolCall.id).Nodup →
      ∀ tr ∈ tool_results,
        (message.tool_calls.map ToolCall.id).count tr.tool_call_id = 1) ∧
    (∀ s, dumps (.jother s) = dumps (.jstr s)) := by
  have hids := runToolCalls_ids db message.tool_calls tool_results h2
  refine ⟨?_, ?_, hids, ?_, ?_, ?_⟩
  · rw [(handleChat_two_calls p db m message tool_results h1 hne h2).1]
    rfl
  · simp [followupMessages, assistantEcho_eq]
  · intro tr _
    rfl
  · intro hnd tr htr
    have hmem : tr.tool_call_id ∈ message.tool_calls.map ToolCall.id := by
      rw [← hids]
      exact List.mem_map_of_mem _ htr
    exact List.count_eq_one_of_mem hnd hmem
  · intro s
    rfl

/-- Witness for C3: the result ids pair with the request ids on a concrete
run. -/
theorem c3_witness :
    ([⟨"call_1", Except.ok (JVal.jarr [])⟩] : List ToolResult).map ToolResult.tool_call_id =
      ([⟨"call_1", ⟨"get_weather_data", "\x7b\x7d"⟩⟩] : List ToolCall).map ToolCall.id :=
  (c3_followup_message_structure toolRequestingProvider emptyDb "hi"
    ⟨none, [⟨"call_1", ⟨"get_weather_data", "\x7b\x7d"⟩⟩]⟩
    [⟨"call_1", Except.ok (JVal.jarr [])⟩] rfl (by decide) rfl).2.2.1

/-- Claim C5 (amended): a request for an unregistered tool whose argument
string is valid JSON — in a batch whose members' argument strings all parse —
is recorded as that invocation's non-empty `Unknown function:` error, its
tool message carries that error serialized to a JSON string, the second
provider call still happens, and the orchestrator returns text instead of
throwing. -/
theorem c5_amended_unknown_tool_recorded (p : Provider) (db : Db) (m : String)
    (message : ProviderMessage) (tc : ToolCall)
    (h1 : p.create (firstRequest m) = .ok message)
    (htc : tc ∈ message.tool_calls)
    (hunk : tc.function.name ∉ TOOL_FUNCTIONS)
    (hparse : ∀ tc' ∈ message.tool_calls, (loads tc'.function.arguments).isSome) :
    ∃ rs, runToolCalls db message.tool_calls = .ok rs ∧
      (⟨tc.id, .error ("Unknown function: " ++ tc.function.name)⟩ : ToolResult) ∈ rs ∧
      "Unknown function: " ++ tc.function.name ≠ "" ∧
      (toolMessage ⟨tc.id, .error ("Unknown function: " ++ tc.function.name)⟩).content =
        some (dumps (.jstr ("Unknown function: " ++ tc.function.name))) ∧
      (handleChatWithTools p db m).2.length = 2 ∧
      (handleChatWithTools p db m).1.isSome := by
  obtain ⟨rs, hrs, hmap⟩ := runToolCalls_ok_of_parse db message.tool_calls hparse
  obtain ⟨r, hr, hmem⟩ := runToolCalls_mem db message.tool_calls rs hrs tc htc
  obtain ⟨args, ha⟩ := Option.isSome_iff_exists.mp (hparse tc htc)
  rw [execToolCall_unknown db tc args ha hunk] at hr
  cases hr
  have hne : message.tool_calls ≠ [] := List.ne_nil_of_mem htc
  obtain ⟨hlog, hsome⟩ := handleChat_two_calls p db m message rs h1 hne hrs
  refine ⟨rs, hrs, hmem, ?_, rfl, by rw [hlog]; rfl, hsome⟩
  intro hcontra
  have hlen := congrArg String.length hcontra
  rw [String.length_append] at hlen
  have he : String.length "Unknown function: " = 18 := rfl
  rw [he] at hlen
  simp at hlen

/-- Witness for the amended C5: the unknown-tool pass still makes the second
provider call. -/
theorem c5_witness :
    (handleChatWithTools unknownToolProvider emptyDb "hi").2.length = 2 := by
  obtain ⟨rs, h1, h2, h3, h4, h5, h6⟩ :=
    c5_amended_unknown_tool_recorded unknownToolProvider emptyDb "hi"
      ⟨none, [⟨"call_1", ⟨"frobnicate", "\x7b\x7d"⟩⟩]⟩
      ⟨"call_1", ⟨"frobnicate", "\x7b\x7d"⟩⟩ rfl (by decide) (by decide) (by decide)
  exact h5

theorem natDigitsRev_eq_digits (f n : Nat) (h : n ≤ f) : natDigitsRev f n = Nat.digits 10 n := by
  induction f generalizing n with
  | zero =>
    interval_cases n
    simp [natDigitsRev]
  | succ f ih =>
    unfold natDigitsRev
    rcases Nat.eq_zero_or_pos n with rfl | hn
    · simp
    · rw [if_neg (Nat.pos_iff_ne_zero.mp hn)]
      rw [Nat.digits_def' (by norm_num : (1:Nat) < 10) hn]
      rw [ih (n / 10) (by omega)]

theorem digitChar_isDigit (d : Nat) (h : d < 10) : isDigitCh (digitChar d) = true := by
  interval_cases d <;> decide

theorem digitChar_val (d : Nat) (h : d < 10) : digitVal (digitChar d) = d := by
  interval_cases d <;> decide

theorem printNatChars_all_digits (n : Nat) : ∀ c ∈ printNatChars n, isDigitCh c = true := by
  intro c hc
  unfold printNatChars at hc
  by_cases hn : n = 0
  · rw [if_pos hn] at hc
    simp at hc
    subst hc
    decide
  · rw [if_neg hn] at hc
    rw [natDigitsRev_eq_digits n n le_rfl] at hc
    simp only [List.mem_reverse, List.mem_map] at hc
    obtain ⟨d, hd, rfl⟩ := hc
    exact digitChar_isDigit d (Nat.digits_lt_base (by norm_num) hd)

theorem printNatChars_ne_nil (n : Nat) : printNatChars n ≠ [] := by
  unfold printNatChars
  by_cases hn : n = 0
  · rw [if_pos hn]
    simp
  · rw [if_neg hn]
    rw [natDigitsRev_eq_digits n n le_rfl]
    simp [Nat.digits_ne_nil_iff_ne_zero, hn]

theorem digitsVal_revmap (l : List Nat) (h : ∀ d ∈ l, d < 10) :
    digitsVal ((l.map digitChar).reverse) = Nat.ofDigits 10 l := by
  induction l with
  | nil => rfl
  | cons d t ih =>
    simp only [List.map_cons, List.reverse_cons]
    unfold digitsVal
    rw [List.foldl_append]
    have ht := ih (fun x hx => h x (by simp [hx]))
    unfold digitsVal at ht
    rw [ht]
    simp [Nat.ofDigits_cons, digitChar_val d (h d (by simp))]
    ring

theorem digitsVal_printNatChars (n : Nat) : digitsVal (printNatChars n) = n := by
  unfold printNatChars
  by_cases hn : n = 0
  · rw [if_pos hn, hn]
    decide
  · rw [if_neg hn, natDigitsRev_eq_digits n n le_rfl]
    rw [digitsVal_revmap _ (fun d hd => Nat.digits_lt_base (by norm_num) hd)]
    exact Nat.ofDigits_digits 10 n

theorem digitsVal_replicate_zero (k : Nat) (l : List Char) :
    digitsVal (List.replicate k '0' ++ l) = digitsVal l := by
  induction k with
  | zero => rfl
  | succ k ih =>
    rw [List.replicate_succ, List.cons_append]
    unfold digitsVal at ih ⊢
    simpa using ih

theorem takeDigits_append (ds rest : List Char) (hds : ∀ c ∈ ds, isDigitCh c = true)
    (hr : ∀ c t, rest = c :: t → isDigitCh c = false) :
    takeDigits (ds ++ rest) = (ds, rest) := by
  induction ds with
  | nil =>
    rcases rest with _ | ⟨c, t⟩
    · rfl
    · simp only [List.nil_append, takeDigits]
      rw [hr c t rfl]
      simp
  | cons c t ih =>
    simp only [List.cons_append, takeDigits]
    rw [hds c (by simp)]
    simp only [if_true]
    have ih' := ih (fun x hx => hds x (by simp [hx]))
    simp only [List.append_eq] at ih' ⊢
    rw [ih']

theorem stopCh_not_digit (rest : List Char) (hr : stopCh rest = true) :
    ∀ c t, rest = c :: t → isDigitCh c = false := by
  intro c t h
  subst h
  have hc : (c = ',' ∨ c = '\x7d') ∨ c = ']' := by simpa [stopCh] using hr
  rcases hc with (rfl | rfl) | rfl <;> decide

theorem parseNumMag_print_nat (neg : Bool) (n : Nat) (rest : List Char)
    (hr : stopCh rest = true) :
    parseNumMag neg (printNatChars n ++ rest) =
      some (.jint (if neg then -(Int.ofNat n) else Int.ofNat n), rest) := by
  have hall := printNatChars_all_digits n
  have hne := printNatChars_ne_nil n
  have hval := digitsVal_printNatChars n
  rcases rest with _ | ⟨c, t⟩
  · simp only [parseNumMag]
    rw [takeDigits_append _ _ hall (by intro c t h; cases h)]
    dsimp only
    rw [if_neg hne]
    simp [hval]
  · have hc : (c = ',' ∨ c = '\x7d') ∨ c = ']' := by simpa [stopCh] using hr
    rcases hc with (rfl | rfl) | rfl <;>
      · simp only [parseNumMag]
        rw [takeDigits_append _ _ hall (by intro c' t' h; cases h; decide)]
        dsimp only
        rw [if_neg hne]
        simp [hval]

theorem parseNumber_eq_mag (c : Char) (t : List Char) (hc : c ≠ '-') :
    parseNumber (c :: t) = parseNumMag false (c :: t) := by
  unfold parseNumber
  split
  · next cs1 heq =>
    rw [List.cons.injEq] at heq
    exact absurd heq.1 hc
  · rfl

theorem head_of_digits_ne_dash (c : Char) (h : isDigitCh c = true) : c ≠ '-' := by
  intro heq
  rw [heq] at h
  exact absurd h (by decide)

theorem parseNumber_print_int (i : Int) (rest : List Char) (hr : stopCh rest = true) :
    parseNumber (printIntChars i ++ rest) = some (.jint i, rest) := by
  unfold printIntChars
  by_cases hi : i < 0
  · rw [if_pos hi]
    rw [show ('-' :: printNatChars i.natAbs) ++ rest =
      '-' :: (printNatChars i.natAbs ++ rest) from rfl]
    rw [show parseNumber ('-' :: (printNatChars i.natAbs ++ rest)) =
      parseNumMag true (printNatChars i.natAbs ++ rest) from rfl]
    rw [parseNumMag_print_nat true i.natAbs rest hr]
    simp [Int.natCast_natAbs, abs_of_neg hi]
  · rw [if_neg hi]
    obtain ⟨c, t, hct⟩ := List.exists_cons_of_ne_nil (printNatChars_ne_nil i.natAbs)
    have hcd : isDigitCh c = true := printNatChars_all_digits i.natAbs c (by rw [hct]; simp)
    rw [hct, List.cons_append, parseNumber_eq_mag c _ (head_of_digits_ne_dash c hcd),
      ← List.cons_append, ← hct]
    rw [parseNumMag_print_nat false i.natAbs rest hr]
    simp [Int.natCast_natAbs, abs_of_nonneg (le_of_not_lt hi)]

theorem parseNumMag_digits (neg : Bool) (intPart fracPart rest : List Char)
    (hint : ∀ c ∈ intPart, isDigitCh c = true) (hfrac : ∀ c ∈ fracPart, isDigitCh c = true)
    (hi : intPart ≠ []) (hf : fracPart ≠ []) (hr : stopCh rest = true) :
    parseNumMag neg (intPart ++ '.' :: (fracPart ++ rest)) =
      some (.jnum ⟨if neg then -(Int.ofNat (digitsVal (intPart ++ fracPart)))
          else Int.ofNat (digitsVal (intPart ++ fracPart)), fracPart.length - 1⟩, rest) := by
  simp only [parseNumMag]
  rw [takeDigits_append intPart ('.' :: (fracPart ++ rest)) hint
    (by intro c t h; cases h; decide)]
  dsimp only
  rw [if_neg hi]
  simp only []
  rw [takeDigits_append fracPart rest hfrac (stopCh_not_digit rest hr)]
  dsimp only
  rw [if_neg hf]

theorem decDigits_all (d : Dec) : ∀ c ∈ decDigits d, isDigitCh c = true := by
  intro c hc
  simp only [decDigits, List.mem_append, List.mem_replicate] at hc
  rcases hc with ⟨_, rfl⟩ | hc
  · decide
  · exact printNatChars_all_digits _ c hc

theorem decDigits_length (d : Dec) : d.fracDigits + 2 ≤ (decDigits d).length := by
  simp only [decDigits, List.length_append, List.length_replicate]
  omega

theorem digitsVal_decDigits (d : Dec) : digitsVal (decDigits d) = d.m.natAbs := by
  simp only [decDigits]
  rw [digitsVal_replicate_zero]
  exact digitsVal_printNatChars _

theorem parseNumber_print_dec (d : Dec) (rest : List Char) (hr : stopCh rest = true) :
    parseNumber (printDecChars d ++ rest) = some (.jnum d, rest) := by
  have hall := decDigits_all d
  have hlen := decDigits_length d
  set ip := (decDigits d).take ((decDigits d).length - (d.fracDigits + 1)) with hip
  set fp := (decDigits d).drop ((decDigits d).length - (d.fracDigits + 1)) with hfp
  have hsplit : ip ++ fp = decDigits d := List.take_append_drop _ _
  have hfplen : fp.length = d.fracDigits + 1 := by
    rw [hfp, List.length_drop]
    omega
  have hiplen : 1 ≤ ip.length := by
    rw [hip, List.length_take]
    omega
  have hipne : ip ≠ [] := by
    intro hnil
    rw [hnil] at hiplen
    simp at hiplen
  have hfpne : fp ≠ [] := by
    intro hnil
    rw [hnil] at hfplen
    simp at hfplen
  have hiall : ∀ c ∈ ip, isDigitCh c = true := fun c hc => hall c (List.take_subset _ _ hc)
  have hfall : ∀ c ∈ fp, isDigitCh c = true := fun c hc => hall c (List.drop_subset _ _ hc)
  have hprint : printDecChars d = (if d.m < 0 then ['-'] else []) ++ ip ++ '.' :: fp := rfl
  by_cases hm : d.m < 0
  · rw [hprint, if_pos hm]
    rw [show ((['-'] ++ ip ++ '.' :: fp) ++ rest) = '-' :: (ip ++ '.' :: (fp ++ rest)) from by
      simp]
    rw [show parseNumber ('-' :: (ip ++ '.' :: (fp ++ rest))) =
      parseNumMag true (ip ++ '.' :: (fp ++ rest)) from rfl]
    rw [parseNumMag_digits true ip fp rest hiall hfall hipne hfpne hr]
    rw [hsplit, digitsVal_decDigits, hfplen]
    simp [Int.natCast_natAbs, abs_of_neg hm]
  · rw [hprint, if_neg hm]
    rw [show ((([] : List Char) ++ ip ++ '.' :: fp) ++ rest) = ip ++ '.' :: (fp ++ rest) from by
      simp]
    obtain ⟨c, t, hct⟩ := List.exists_cons_of_ne_nil hipne
    have hcd : isDigitCh c = true := hiall c (by rw [hct]; simp)
    rw [hct, List.cons_append, parseNumber_eq_mag c _ (head_of_digits_ne_dash c hcd),
      ← List.cons_append, ← hct]
    rw [parseNumMag_digits false ip fp rest hiall hfall hipne hfpne hr]
    rw [hsplit, digitsVal_decDigits, hfplen]
    simp [Int.natCast_natAbs, abs_of_nonneg (le_of_not_lt hm)]

theorem char_toNat_valid (c : Char) :
    c.toNat < 55296 ∨ (57343 < c.toNat ∧ c.toNat < 1114112) := by
  have h := c.valid
  simp only [UInt32.isValidChar, Nat.isValidChar] at h
  exact h

theorem hexVal_hexDigitChar (d : Nat) (h : d < 16) : hexVal (hexDigitChar d) = some d := by
  interval_cases d <;> decide

theorem escapeChar_plain (c : Char) (h1 : c ≠ '"') (h2 : c ≠ '\\')
    (hr : 32 ≤ c.toNat ∧ c.toNat < 127) : escapeChar c = [c] := by
  have h3 : c ≠ '\x08' := fun he => by rw [he] at hr; exact absurd hr (by decide)
  have h4 : c ≠ '\t' := fun he => by rw [he] at hr; exact absurd hr (by decide)
  have h5 : c ≠ '\n' := fun he => by rw [he] at hr; exact absurd hr (by decide)
  have h6 : c ≠ '\x0c' := fun he => by rw [he] at hr; exact absurd hr (by decide)
  have h7 : c ≠ '\r' := fun he => by rw [he] at hr; exact absurd hr (by decide)
  unfold escapeChar
  rw [if_neg h1, if_neg h2, if_neg h3, if_neg h4, if_neg h5, if_neg h6, if_neg h7, if_neg]
  simp only [Bool.or_eq_true, decide_eq_true_eq, not_or, not_lt, not_le]
  omega

theorem escapeChar_u_bmp (c : Char)
    (h1 : c ≠ '"') (h2 : c ≠ '\\') (h3 : c ≠ '\x08') (h4 : c ≠ '\t') (h5 : c ≠ '\n')
    (h6 : c ≠ '\x0c') (h7 : c ≠ '\r')
    (hesc : c.toNat < 32 ∨ 127 ≤ c.toNat) (hbmp : c.toNat < 65536) :
    escapeChar c = uEscapeChars c.toNat := by
  unfold escapeChar
  rw [if_neg h1, if_neg h2, if_neg h3, if_neg h4, if_neg h5, if_neg h6, if_neg h7,
    if_pos (by simpa using hesc), if_pos hbmp]

theorem escapeChar_u_astral (c : Char) (hast : 65536 ≤ c.toNat) :
    escapeChar c = uEscapeChars (55296 + (c.toNat - 65536) / 1024) ++
      uEscapeChars (56320 + (c.toNat - 65536) % 1024) := by
  have h1 : c ≠ '"' := fun he => by rw [he] at hast; exact absurd hast (by decide)
  have h2 : c ≠ '\\' := fun he => by rw [he] at hast; exact absurd hast (by decide)
  have h3 : c ≠ '\x08' := fun he => by rw [he] at hast; exact absurd hast (by decide)
  have h4 : c ≠ '\t' := fun he => by rw [he] at hast; exact absurd hast (by decide)
  have h5 : c ≠ '\n' := fun he => by rw [he] at hast; exact absurd hast (by decide)
  have h6 : c ≠ '\x0c' := fun he => by rw [he] at hast; exact absurd hast (by decide)
  have h7 : c ≠ '\r' := fun he => by rw [he] at hast; exact absurd hast (by decide)
  unfold escapeChar
  rw [if_neg h1, if_neg h2, if_neg h3, if_neg h4, if_neg h5, if_neg h6, if_neg h7,
    if_pos (by simpa using Or.inr (by omega : 127 ≤ c.toNat)), if_neg (by omega)]

theorem parseStringBody_cons_plain (c : Char) (X : List Char) (h3 : c ≠ '"')
    (h4 : c ≠ '\\') :
    parseStringBody (c :: X) = (parseStringBody X).map (fun p => (c :: p.1, p.2)) := by
  conv_lhs => rw [parseStringBody.eq_def]
  split
  · next heq => simp_all
  · next heq => simp_all
  · next heq => simp_all
  · next c' rest heq h5 h6 =>
    rw [List.cons.injEq] at h6
    rw [← h6.1, ← h6.2]

theorem parseStringBody_u_nosur (a b c d : Char) (va vb vc vd : Nat)
    (ha : hexVal a = some va) (hb : hexVal b = some vb)
    (hc : hexVal c = some vc) (hd : hexVal d = some vd)
    (hlow : va * 4096 + vb * 256 + vc * 16 + vd < 55296 ∨
      57344 ≤ va * 4096 + vb * 256 + vc * 16 + vd) (X : List Char) :
    parseStringBody ('\\' :: 'u' :: a :: b :: c :: d :: X) =
      (parseStringBody X).map
        (fun p => (Char.ofNat (va * 4096 + vb * 256 + vc * 16 + vd) :: p.1, p.2)) := by
  conv_lhs => rw [parseStringBody.eq_def]
  simp only [ha, hb, hc, hd]
  rw [if_neg (by omega), if_neg (by omega)]

theorem parseStringBody_u_pair (a b c d a2 b2 c2 d2 : Char)
    (va vb vc vd wa wb wc wd : Nat)
    (ha : hexVal a = some va) (hb : hexVal b = some vb)
    (hc : hexVal c = some vc) (hd : hexVal d = some vd)
    (ha2 : hexVal a2 = some wa) (hb2 : hexVal b2 = some wb)
    (hc2 : hexVal c2 = some wc) (hd2 : hexVal d2 = some wd)
    (hhi1 : 55296 ≤ va * 4096 + vb * 256 + vc * 16 + vd)
    (hhi2 : va * 4096 + vb * 256 + vc * 16 + vd < 56320)
    (hlo1 : 56320 ≤ wa * 4096 + wb * 256 + wc * 16 + wd)
    (hlo2 : wa * 4096 + wb * 256 + wc * 16 + wd < 57344) (X : List Char) :
    parseStringBody ('\\' :: 'u' :: a :: b :: c :: d ::
        '\\' :: 'u' :: a2 :: b2 :: c2 :: d2 :: X) =
      (parseStringBody X).map (fun p =>
        (Char.ofNat (65536 + (va * 4096 + vb * 256 + vc * 16 + vd - 55296) * 1024 +
          (wa * 4096 + wb * 256 + wc * 16 + wd - 56320)) :: p.1, p.2)) := by
  conv_lhs => rw [parseStringBody.eq_def]
  simp only [ha, hb, hc, hd, ha2, hb2, hc2, hd2]
  rw [if_pos ⟨hhi1, hhi2⟩, if_pos ⟨hlo1, hlo2⟩]

theorem parseStringBody_escape (cs rest : List Char) :
    parseStringBody (escapeChars cs ++ '"' :: rest) = some (cs, rest) := by
  induction cs with
  | nil => rfl
  | cons c t ih =>
    rw [show escapeChars (c :: t) = escapeChar c ++ escapeChars t from rfl]
    by_cases h1 : c = '"'
    · subst h1
      rw [show (escapeChar '"' ++ escapeChars t) ++ '"' :: rest =
        '\\' :: '"' :: (escapeChars t ++ '"' :: rest) from rfl]
      rw [show parseStringBody ('\\' :: '"' :: (escapeChars t ++ '"' :: rest)) =
        (parseStringBody (escapeChars t ++ '"' :: rest)).map
          (fun p => ('"' :: p.1, p.2)) from rfl]
      rw [ih]
      rfl
    by_cases h2 : c = '\\'
    · subst h2
      rw [show (escapeChar '\\' ++ escapeChars t) ++ '"' :: rest =
        '\\' :: '\\' :: (escapeChars t ++ '"' :: rest) from rfl]
      rw [show parseStringBody ('\\' :: '\\' :: (escapeChars t ++ '"' :: rest)) =
        (parseStringBody (escapeChars t ++ '"' :: rest)).map
          (fun p => ('\\' :: p.1, p.2)) from rfl]
      rw [ih]
      rfl
    by_cases h3 : c = '\x08'
    · subst h3
      rw [show (escapeChar '\x08' ++ escapeChars t) ++ '"' :: rest =
        '\\' :: 'b' :: (escapeChars t ++ '"' :: rest) from rfl]
      rw [show parseStringBody ('\\' :: 'b' :: (escapeChars t ++ '"' :: rest)) =
        (parseStringBody (escapeChars t ++ '"' :: rest)).map
          (fun p => ('\x08' :: p.1, p.2)) from rfl]
      rw [ih]
      rfl
    by_cases h4 : c = '\t'
    · subst h4
      rw [show (escapeChar '\t' ++ escapeChars t) ++ '"' :: rest =
        '\\' :: 't' :: (escapeChars t ++ '"' :: rest) from rfl]
      rw [show parseStringBody ('\\' :: 't' :: (escapeChars t ++ '"' :: rest)) =
        (parseStringBody (escapeChars t ++ '"' :: rest)).map
          (fun p => ('\t' :: p.1, p.2)) from rfl]
      rw [ih]
      rfl
    by_cases h5 : c = '\n'
    · subst h5
      rw [show (escapeChar '\n' ++ escapeChars t) ++ '"' :: rest =
        '\\' :: 'n' :: (escapeChars t ++ '"' :: rest) from rfl]
      rw [show parseStringBody ('\\' :: 'n' :: (escapeChars t ++ '"' :: rest)) =
        (parseStringBody (escapeChars t ++ '"' :: rest)).map
          (fun p => ('\n' :: p.1, p.2)) from rfl]
      rw [ih]
      rfl
    by_cases h6 : c = '\x0c'
    · subst h6
      rw [show (escapeChar '\x0c' ++ escapeChars t) ++ '"' :: rest =
        '\\' :: 'f' :: (escapeChars t ++ '"' :: rest) from rfl]
      rw [show parseStringBody ('\\' :: 'f' :: (escapeChars t ++ '"' :: rest)) =
        (parseStringBody (escapeChars t ++ '"' :: rest)).map
          (fun p => ('\x0c' :: p.1, p.2)) from rfl]
      rw [ih]
      rfl
    by_cases h7 : c = '\r'
    · subst h7
      rw [show (escapeChar '\r' ++ escapeChars t) ++ '"' :: rest =
        '\\' :: 'r' :: (escapeChars t ++ '"' :: rest) from rfl]
      rw [show parseStringBody ('\\' :: 'r' :: (escapeChars t ++ '"' :: rest)) =
        (parseStringBody (escapeChars t ++ '"' :: rest)).map
          (fun p => ('\r' :: p.1, p.2)) from rfl]
      rw [ih]
      rfl
    by_cases hesc : c.toNat < 32 ∨ 127 ≤ c.toNat
    · have hval := char_toNat_valid c
      by_cases hbmp : c.toNat < 65536
      · rw [escapeChar_u_bmp c h1 h2 h3 h4 h5 h6 h7 hesc hbmp]
        rw [show (uEscapeChars c.toNat ++ escapeChars t) ++ '"' :: rest =
          '\\' :: 'u' :: hexDigitChar (c.toNat / 4096 % 16) ::
            hexDigitChar (c.toNat / 256 % 16) :: hexDigitChar (c.toNat / 16 % 16) ::
            hexDigitChar (c.toNat % 16) :: (escapeChars t ++ '"' :: rest) from rfl]
        rw [parseStringBody_u_nosur (hexDigitChar (c.toNat / 4096 % 16))
          (hexDigitChar (c.toNat / 256 % 16)) (hexDigitChar (c.toNat / 16 % 16))
          (hexDigitChar (c.toNat % 16)) (c.toNat / 4096 % 16) (c.toNat / 256 % 16)
          (c.toNat / 16 % 16) (c.toNat % 16)
          (hexVal_hexDigitChar _ (by omega)) (hexVal_hexDigitChar _ (by omega))
          (hexVal_hexDigitChar _ (by omega)) (hexVal_hexDigitChar _ (by omega))
          (by omega) (escapeChars t ++ '"' :: rest)]
        rw [show c.toNat / 4096 % 16 * 4096 + c.toNat / 256 % 16 * 256 +
          c.toNat / 16 % 16 * 16 + c.toNat % 16 = c.toNat from by omega]
        rw [ih, Char.ofNat_toNat]
        rfl
      · have hast : 65536 ≤ c.toNat := by omega
        rw [escapeChar_u_astral c hast]
        set hi := 55296 + (c.toNat - 65536) / 1024 with hhi
        set lo := 56320 + (c.toNat - 65536) % 1024 with hlo
        rw [show ((uEscapeChars hi ++ uEscapeChars lo) ++ escapeChars t) ++ '"' :: rest =
          '\\' :: 'u' :: hexDigitChar (hi / 4096 % 16) :: hexDigitChar (hi / 256 % 16) ::
            hexDigitChar (hi / 16 % 16) :: hexDigitChar (hi % 16) ::
            ('\\' :: 'u' :: hexDigitChar (lo / 4096 % 16) :: hexDigitChar (lo / 256 % 16) ::
              hexDigitChar (lo / 16 % 16) :: hexDigitChar (lo % 16) ::
              (escapeChars t ++ '"' :: rest)) from rfl]
        rw [parseStringBody_u_pair (hexDigitChar (hi / 4096 % 16))
          (hexDigitChar (hi / 256 % 16)) (hexDigitChar (hi / 16 % 16))
          (hexDigitChar (hi % 16)) (hexDigitChar (lo / 4096 % 16))
          (hexDigitChar (lo / 256 % 16)) (hexDigitChar (lo / 16 % 16))
          (hexDigitChar (lo % 16)) (hi / 4096 % 16) (hi / 256 % 16) (hi / 16 % 16)
          (hi % 16) (lo / 4096 % 16) (lo / 256 % 16) (lo / 16 % 16) (lo % 16)
          (hexVal_hexDigitChar _ (by omega)) (hexVal_hexDigitChar _ (by omega))
          (hexVal_hexDigitChar _ (by omega)) (hexVal_hexDigitChar _ (by omega))
          (hexVal_hexDigitChar _ (by omega)) (hexVal_hexDigitChar _ (by omega))
          (hexVal_hexDigitChar _ (by omega)) (hexVal_hexDigitChar _ (by omega))
          (by omega) (by omega) (by omega) (by omega) (escapeChars t ++ '"' :: rest)]
        rw [show 65536 + (hi / 4096 % 16 * 4096 + hi / 256 % 16 * 256 +
          hi / 16 % 16 * 16 + hi % 16 - 55296) * 1024 +
          (lo / 4096 % 16 * 4096 + lo / 256 % 16 * 256 +
            lo / 16 % 16 * 16 + lo % 16 - 56320) = c.toNat from by omega]
        rw [ih, Char.ofNat_toNat]
        rfl
    · rw [escapeChar_plain c h1 h2 (by omega)]
      rw [show ([c] ++ escapeChars t) ++ '"' :: rest =
        c :: (escapeChars t ++ '"' :: rest) from rfl]
      rw [parseStringBody_cons_plain c _ h1 h2]
      rw [ih]
      rfl

theorem skipWs_colon (r : List Char) : skipWs (':' :: r) = ':' :: r := rfl
theorem skipWs_comma (r : List Char) : skipWs (',' :: r) = ',' :: r := rfl
theorem skipWs_rbrace (r : List Char) : skipWs ('\x7d' :: r) = '\x7d' :: r := rfl
theorem skipWs_quote (r : List Char) : skipWs ('"' :: r) = '"' :: r := rfl
theorem skipWs_space (r : List Char) : skipWs (' ' :: r) = skipWs r := rfl

theorem parseValue_skip_space (f : Nat) (l : List Char) :
    parseValue f (' ' :: l) = parseValue f l := by
  cases f with
  | zero => rfl
  | succ f => rfl

theorem parseValue_quote (f : Nat) (r : List Char) :
    parseValue (f + 1) ('"' :: r) =
      (parseStringBody r).map (fun p => (.jstr (String.mk p.1), p.2)) := rfl

theorem parseValue_null (f : Nat) (r : List Char) :
    parseValue (f + 1) ('n' :: 'u' :: 'l' :: 'l' :: r) = some (.jnull, r) := rfl

theorem parseValue_lbrace (f : Nat) (r : List Char) :
    parseValue (f + 1) ('\x7b' :: r) =
      (match skipWs r with
        | '\x7d' :: r2 => some (.jobj [], r2)
        | r2 => (parseMembers f r2).map (fun p => (.jobj p.1, p.2))) := rfl

theorem parseMembers_quote (f : Nat) (r : List Char) :
    parseMembers (f + 1) ('"' :: r) =
      (match parseStringBody r with
        | none => none
        | some (key, r1) =>
          match skipWs r1 with
          | ':' :: r2 =>
            match parseValue f r2 with
            | none => none
            | some (v, r3) =>
              match skipWs r3 with
              | ',' :: r4 =>
                (parseMembers f (skipWs r4)).map (fun p => ((String.mk key, v) :: p.1, p.2))
              | '\x7d' :: r4 => some ([(String.mk key, v)], r4)
              | _ => none
          | _ => none) := rfl

set_option maxHeartbeats 1000000 in
theorem parseValue_succ (f : Nat) (cs : List Char) :
    parseValue (f + 1) cs =
      (match skipWs cs with
        | '\x7b' :: r =>
          match skipWs r with
          | '\x7d' :: r2 => some (.jobj [], r2)
          | r2 => (parseMembers f r2).map (fun p => (.jobj p.1, p.2))
        | '[' :: r =>
          match skipWs r with
          | ']' :: r2 => some (.jarr [], r2)
          | r2 => (parseElems f r2).map (fun p => (.jarr p.1, p.2))
        | '"' :: r => (parseStringBody r).map (fun p => (.jstr (String.mk p.1), p.2))
        | 't' :: 'r' :: 'u' :: 'e' :: r => some (.jbool true, r)
        | 'f' :: 'a' :: 'l' :: 's' :: 'e' :: r => some (.jbool false, r)
        | 'n' :: 'u' :: 'l' :: 'l' :: r => some (.jnull, r)
        | cs' => parseNumber cs') := rfl

set_option maxHeartbeats 4000000 in
theorem parseValue_number_head (f : Nat) (c : Char) (t : List Char)
    (h : isDigitCh c = true ∨ c = '-') :
    parseValue (f + 1) (c :: t) = parseNumber (c :: t) := by
  have hws : isWsCh c = false := by
    rcases h with h | rfl
    · have h1 : c ≠ ' ' := fun he => by rw [he] at h; exact absurd h (by decide)
      have h2 : c ≠ '\t' := fun he => by rw [he] at h; exact absurd h (by decide)
      have h3 : c ≠ '\n' := fun he => by rw [he] at h; exact absurd h (by decide)
      have h4 : c ≠ '\r' := fun he => by rw [he] at h; exact absurd h (by decide)
      simp only [isWsCh, Bool.or_eq_false_iff, decide_eq_false_iff_not]
      exact ⟨⟨⟨h1, h2⟩, h3⟩, h4⟩
    · decide
  rw [parseValue_succ]
  rw [show skipWs (c :: t) = c :: t from by simp [skipWs, hws]]
  split
  · next heq =>
    rw [List.cons.injEq] at heq
    rcases h with h | h <;> (rw [heq.1] at h; exact absurd h (by decide))
  · next heq =>
    rw [List.cons.injEq] at heq
    rcases h with h | h <;> (rw [heq.1] at h; exact absurd h (by decide))
  · next heq =>
    rw [List.cons.injEq] at heq
    rcases h with h | h <;> (rw [heq.1] at h; exact absurd h (by decide))
  · next heq =>
    rw [List.cons.injEq] at heq
    rcases h with h | h <;> (rw [heq.1] at h; exact absurd h (by decide))
  · next heq =>
    rw [List.cons.injEq] at heq
    rcases h with h | h <;> (rw [heq.1] at h; exact absurd h (by decide))
  · next heq =>
    rw [List.cons.injEq] at heq
    rcases h with h | h <;> (rw [heq.1] at h; exact absurd h (by decide))
  · rfl

theorem printIntChars_head (i : Int) :
    ∃ c t, printIntChars i = c :: t ∧ (isDigitCh c = true ∨ c = '-') := by
  unfold printIntChars
  by_cases hi : i < 0
  · rw [if_pos hi]
    exact ⟨'-', printNatChars i.natAbs, rfl, Or.inr rfl⟩
  · rw [if_neg hi]
    obtain ⟨c, t, hct⟩ := List.exists_cons_of_ne_nil (printNatChars_ne_nil i.natAbs)
    exact ⟨c, t, hct, Or.inl (printNatChars_all_digits i.natAbs c (by rw [hct]; simp))⟩

theorem printDecChars_head (d : Dec) :
    ∃ c t, printDecChars d = c :: t ∧ (isDigitCh c = true ∨ c = '-') := by
  have hall := decDigits_all d
  have hlen := decDigits_length d
  set ip := (decDigits d).take ((decDigits d).length - (d.fracDigits + 1)) with hip
  set fp := (decDigits d).drop ((decDigits d).length - (d.fracDigits + 1)) with hfp
  have hiplen : 1 ≤ ip.length := by
    rw [hip, List.length_take]
    omega
  have hipne : ip ≠ [] := by
    intro hnil
    rw [hnil] at hiplen
    simp at hiplen
  have hprint : printDecChars d = (if d.m < 0 then ['-'] else []) ++ ip ++ '.' :: fp := rfl
  by_cases hm : d.m < 0
  · rw [hprint, if_pos hm]
    exact ⟨'-', ip ++ '.' :: fp, by simp, Or.inr rfl⟩
  · rw [hprint, if_neg hm]
    obtain ⟨c, t, hct⟩ := List.exists_cons_of_ne_nil hipne
    refine ⟨c, t ++ '.' :: fp, by simp [hct], Or.inl ?_⟩
    have hcmem : c ∈ ip := by rw [hct]; simp
    rw [hip] at hcmem
    exact hall c (List.take_subset _ _ hcmem)

theorem parsesV_int (i : Int) : ParsesV 1 (printIntChars i) (.jint i) := by
  intro f rest hr
  obtain ⟨c, t, hct, hd⟩ := printIntChars_head i
  rw [hct, List.cons_append, parseValue_number_head f c _ hd, ← List.cons_append, ← hct]
  exact parseNumber_print_int i rest hr

theorem parsesV_num (d : Dec) : ParsesV 1 (printDecChars d) (.jnum d) := by
  intro f rest hr
  obtain ⟨c, t, hct, hd⟩ := printDecChars_head d
  rw [hct, List.cons_append, parseValue_number_head f c _ hd, ← List.cons_append, ← hct]
  exact parseNumber_print_dec d rest hr

theorem parsesV_str (s : String) :
    ParsesV 1 (quoteChars s) (.jstr s) := by
  intro f rest hr
  rw [show quoteChars s ++ rest = '"' :: (escapeChars s.data ++ '"' :: rest) from by
    simp [quoteChars]]
  rw [parseValue_quote]
  rw [parseStringBody_escape s.data rest]
  rfl

theorem parsesV_null : ParsesV 1 (['n', 'u', 'l', 'l']) .jnull := by
  intro f rest hr
  exact parseValue_null f rest

theorem parsesM_single (k : String) (v : JVal) (kv : Nat) (wv : List Char)
    (hv : ParsesV kv wv v) :
    ParsesM (kv + 1) (quoteChars k ++ ':' :: ' ' :: (wv ++ ['\x7d'])) [(k, v)] := by
  intro f rest hr
  rw [show (quoteChars k ++ ':' :: ' ' :: (wv ++ ['\x7d'])) ++ rest =
      '"' :: (escapeChars k.data ++ '"' :: (':' :: ' ' :: (wv ++ '\x7d' :: rest))) from by
    simp [quoteChars]]
  rw [show f + (kv + 1) = (f + kv) + 1 from rfl]
  rw [parseMembers_quote]
  rw [parseStringBody_escape k.data _]
  simp only []
  rw [skipWs_colon]
  simp only []
  rw [parseValue_skip_space]
  rw [hv f ('\x7d' :: rest) rfl]
  simp only []
  rw [skipWs_rbrace]
  rfl

theorem parsesM_append (k : String) (v : JVal) (kv km : Nat) (wv t : List Char)
    (kvs : List (String × JVal))
    (hv : ParsesV kv wv v)
    (hm : ParsesM km ('"' :: t) kvs) :
    ParsesM (kv + km + 1) (quoteChars k ++ ':' :: ' ' :: (wv ++ ',' :: ' ' :: ('"' :: t)))
      ((k, v) :: kvs) := by
  intro f rest hr
  rw [show (quoteChars k ++ ':' :: ' ' :: (wv ++ ',' :: ' ' :: ('"' :: t))) ++ rest =
      '"' :: (escapeChars k.data ++ '"' ::
        (':' :: ' ' :: (wv ++ ',' :: ' ' :: '"' :: (t ++ rest)))) from by
    simp [quoteChars]]
  rw [show f + (kv + km + 1) = (f + kv + km) + 1 from by omega]
  rw [parseMembers_quote]
  rw [parseStringBody_escape k.data _]
  simp only []
  rw [skipWs_colon]
  simp only []
  rw [parseValue_skip_space]
  rw [show f + kv + km = (f + km) + kv from by omega]
  rw [hv (f + km) (',' :: ' ' :: '"' :: (t ++ rest)) rfl]
  simp only []
  rw [skipWs_comma]
  simp only []
  rw [skipWs_space, skipWs_quote]
  rw [show (f + km) + kv = (f + kv) + km from by omega]
  rw [show ('"' :: (t ++ rest)) = ('"' :: t) ++ rest from rfl]
  rw [hm (f + kv) rest hr]
  rfl

theorem parsesV_obj (km : Nat) (t : List Char) (kvs : List (String × JVal))
    (hm : ParsesM km ('"' :: t) kvs) :
    ParsesV (km + 1) ('\x7b' :: '"' :: t) (.jobj kvs) := by
  intro f rest hr
  rw [show ('\x7b' :: '"' :: t) ++ rest = '\x7b' :: '"' :: (t ++ rest) from by simp]
  rw [show f + (km + 1) = (f + km) + 1 from rfl]
  rw [parseValue_lbrace]
  rw [skipWs_quote]
  show (parseMembers (f + km) (('"' :: t) ++ rest)).map (fun p => (JVal.jobj p.1, p.2)) =
    some (.jobj kvs, rest)
  rw [hm f rest hr]
  rfl

theorem dumpsMembers_cons_head (kv : String × JVal) (kvs : List (String × JVal)) :
    ∃ t, dumpsMembers (kv :: kvs) = '"' :: t := by
  rcases kv with ⟨k, v⟩
  rcases kvs with _ | ⟨kv2, rest⟩
  · exact ⟨escapeChars k.data ++ '"' :: ':' :: ' ' :: (dumpsChars v ++ ['\x7d']),
      by simp [dumpsMembers, quoteChars]⟩
  · exact ⟨escapeChars k.data ++ '"' :: ':' :: ' ' ::
        (dumpsChars v ++ ',' :: ' ' :: dumpsMembers (kv2 :: rest)),
      by simp [dumpsMembers, quoteChars]⟩

theorem parsesM_dumps_single (k : String) (v : JVal) (kv : Nat)
    (hv : ParsesV kv (dumpsChars v) v) :
    ParsesM (kv + 1) (dumpsMembers [(k, v)]) [(k, v)] := by
  rw [show dumpsMembers [(k, v)] =
      quoteChars k ++ ':' :: ' ' :: (dumpsChars v ++ ['\x7d']) from by
    simp [dumpsMembers, List.append_assoc]]
  exact parsesM_single k v kv _ hv

theorem parsesM_dumps_cons (k : String) (v : JVal) (kv km : Nat)
    (kvs : List (String × JVal))
    (hv : ParsesV kv (dumpsChars v) v)
    (hne : kvs ≠ [])
    (hm : ParsesM km (dumpsMembers kvs) kvs) :
    ParsesM (kv + km + 1) (dumpsMembers ((k, v) :: kvs)) ((k, v) :: kvs) := by
  obtain ⟨kv2, rest, rfl⟩ : ∃ a b, kvs = a :: b := by
    rcases kvs with _ | ⟨a, b⟩
    · exact absurd rfl hne
    · exact ⟨a, b, rfl⟩
  obtain ⟨t, ht⟩ := dumpsMembers_cons_head kv2 rest
  rw [show dumpsMembers ((k, v) :: kv2 :: rest) =
      quoteChars k ++ ':' :: ' ' :: (dumpsChars v ++ ',' :: ' ' :: dumpsMembers (kv2 :: rest))
      from by simp [dumpsMembers, List.append_assoc]]
  rw [ht] at hm ⊢
  exact parsesM_append k v kv km (dumpsChars v) t (kv2 :: rest) hv hm

theorem parsesV_dumps_obj (kv2 : String × JVal) (kvs : List (String × JVal)) (km : Nat)
    (hm : ParsesM km (dumpsMembers (kv2 :: kvs)) (kv2 :: kvs)) :
    ParsesV (km + 1) (dumpsChars (.jobj (kv2 :: kvs))) (.jobj (kv2 :: kvs)) := by
  obtain ⟨t, ht⟩ := dumpsMembers_cons_head kv2 kvs
  rw [show dumpsChars (.jobj (kv2 :: kvs)) = '\x7b' :: dumpsMembers (kv2 :: kvs) from by
    simp [dumpsChars]]
  rw [ht] at hm ⊢
  exact parsesV_obj km t _ hm

theorem parsesV_dumps_int (i : Int) : ParsesV 1 (dumpsChars (.jint i)) (.jint i) := by
  rw [show dumpsChars (.jint i) = printIntChars i from by simp [dumpsChars]]
  exact parsesV_int i

theorem parsesV_dumps_num (d : Dec) : ParsesV 1 (dumpsChars (.jnum d)) (.jnum d) := by
  rw [show dumpsChars (.jnum d) = printDecChars d from by simp [dumpsChars]]
  exact parsesV_num d

theorem parsesV_dumps_str (s : String) :
    ParsesV 1 (dumpsChars (.jstr s)) (.jstr s) := by
  rw [show dumpsChars (.jstr s) = quoteChars s from by simp [dumpsChars]]
  exact parsesV_str s

theorem parsesV_dumps_null : ParsesV 1 (dumpsChars .jnull) .jnull := by
  rw [show dumpsChars .jnull = ['n', 'u', 'l', 'l'] from by simp [dumpsChars]]
  exact parsesV_null

theorem parsesV_locationDict (l : Location) :
    ParsesV 7 (dumpsChars (locationDict l)) (locationDict l) := by
  have hgv : ParsesV 1
      (dumpsChars (match l.geom_wkt with | some s => JVal.jstr s | none => JVal.jnull))
      (match l.geom_wkt with | some s => JVal.jstr s | none => JVal.jnull) := by
    rcases l.geom_wkt with _ | s
    · exact parsesV_dumps_null
    · exact parsesV_dumps_str s
  have m3 := parsesM_dumps_single "geom_wkt" _ 1 hgv
  have m2 := parsesM_dumps_cons "name" (.jstr l.name) 1 2 _
    (parsesV_dumps_str l.name) (by simp) m3
  have m1 := parsesM_dumps_cons "id" (.jint l.id) 1 4 _
    (parsesV_dumps_int l.id) (by simp) m2
  exact parsesV_dumps_obj _ _ 6 m1

theorem parsesV_weatherDict (w : Weather) (l : Location)
    (hloc : w.location = some l) :
    ParsesV 21 (dumpsChars (weatherDict w)) (weatherDict w) := by
  have hlid : ParsesV 1
      (dumpsChars (match w.location_id with | some i => JVal.jint i | none => JVal.jnull))
      (match w.location_id with | some i => JVal.jint i | none => JVal.jnull) := by
    rcases w.location_id with _ | i
    · exact parsesV_dumps_null
    · exact parsesV_dumps_int i
  have htmax : ParsesV 1
      (dumpsChars (match w.temp_max with | some d => JVal.jnum d | none => JVal.jnull))
      (match w.temp_max with | some d => JVal.jnum d | none => JVal.jnull) := by
    rcases w.temp_max with _ | d
    · exact parsesV_dumps_null
    · exact parsesV_dumps_num d
  have htmin : ParsesV 1
      (dumpsChars (match w.temp_min with | some d => JVal.jnum d | none => JVal.jnull))
      (match w.temp_min with | some d => JVal.jnum d | none => JVal.jnull) := by
    rcases w.temp_min with _ | d
    · exact parsesV_dumps_null
    · exact parsesV_dumps_num d
  have hprec : ParsesV 1
      (dumpsChars (match w.precipitation with | some d => JVal.jnum d | none => JVal.jnull))
      (match w.precipitation with | some d => JVal.jnum d | none => JVal.jnull) := by
    rcases w.precipitation with _ | d
    · exact parsesV_dumps_null
    · exact parsesV_dumps_num d
  have hwd : weatherDict w = .jobj [("id", .jint w.id),
      ("date", .jstr (strOptPyDate w.date)),
      ("temp_max", match w.temp_max with | some d => JVal.jnum d | none => JVal.jnull),
      ("temp_min", match w.temp_min with | some d => JVal.jnum d | none => JVal.jnull),
      ("precipitation", match w.precipitation with | some d => JVal.jnum d | none => JVal.jnull),
      ("location_id", match w.location_id with | some i => JVal.jint i | none => JVal.jnull),
      ("location", locationDict l)] := by
    simp [weatherDict, hloc]
  have m7 := parsesM_dumps_single "location" (locationDict l) 7
    (parsesV_locationDict l)
  have m6 := parsesM_dumps_cons "location_id" _ 1 8 _ hlid (by simp) m7
  have m5 := parsesM_dumps_cons "precipitation" _ 1 10 _ hprec (by simp) m6
  have m4 := parsesM_dumps_cons "temp_min" _ 1 12 _ htmin (by simp) m5
  have m3 := parsesM_dumps_cons "temp_max" _ 1 14 _ htmax (by simp) m4
  have m2 := parsesM_dumps_cons "date" (.jstr (strOptPyDate w.date)) 1 16 _
    (parsesV_dumps_str _) (by simp) m3
  have m1 := parsesM_dumps_cons "id" (.jint w.id) 1 18 _
    (parsesV_dumps_int w.id) (by simp) m2
  rw [hwd]
  exact parsesV_dumps_obj _ _ 20 m1

theorem loads_dumps_weatherDict (w : Weather) (l : Location)
    (hloc : w.location = some l) :
    loads (dumps (weatherDict w)) = some (weatherDict w) := by
  have hP := parsesV_weatherDict w l hloc
  show loadsChars (String.mk (dumpsChars (weatherDict w))).data = _
  rw [show (String.mk (dumpsChars (weatherDict w))).data = dumpsChars (weatherDict w) from rfl]
  unfold loadsChars
  rw [show (dumpsChars (weatherDict w)).length + 64 =
    ((dumpsChars (weatherDict w)).length + 43) + 21 from by omega]
  have h2 := hP ((dumpsChars (weatherDict w)).length + 43) [] rfl
  rw [List.append_nil] at h2
  rw [h2]
  rfl

/-- Claim C8: for every weather record with an associated location, the dict
built by the list-weather tool function, serialized by `json.dumps` and parsed
back by `json.loads`, reproduces the record exactly — in particular the same
date string, `temp_max`, `temp_min`, `precipitation` (nullable columns carried
as null when absent) and location name. -/
theorem c8_weather_record_roundtrip (w : Weather) (l : Location)
    (hloc : w.location = some l) :
    loads (dumps (weatherDict w)) = some (weatherDict w) ∧
    weatherDict w = .jobj [("id", .jint w.id), ("date", .jstr (strOptPyDate w.date)),
      ("temp_max", match w.temp_max with | some d => JVal.jnum d | none => JVal.jnull),
      ("temp_min", match w.temp_min with | some d => JVal.jnum d | none => JVal.jnull),
      ("precipitation", match w.precipitation with | some d => JVal.jnum d | none => JVal.jnull),
      ("location_id", match w.location_id with | some i => JVal.jint i | none => JVal.jnull),
      ("location", locationDict l)] ∧
    locationDict l = .jobj [("id", .jint l.id), ("name", .jstr l.name),
      ("geom_wkt", match l.geom_wkt with | some s => JVal.jstr s | none => JVal.jnull)] :=
  ⟨loads_dumps_weatherDict w l hloc, by simp [weatherDict, hloc], rfl⟩

/-- Witness for C8 at a concrete record (2024-01-01, 30.0/24.0/2.5,
location Colombo). -/
theorem c8_witness :
    loads (dumps (weatherDict witnessWeather)) = some (weatherDict witnessWeather) :=
  (c8_weather_record_roundtrip witnessWeather witnessLocation rfl).1
